import Mathlib

/-!
Shallow embedding of the reconciliation decision engine and the derived
workflow state machine of the `deriv-prototype` repository
(`services/agno_api/app/reconciliation.py`, `formatting.py`, `rules.py`,
`storage.py`), together with theorems settling the frozen claims.

Modelling conventions:
* Python scalar cell values are `PyVal` (string, float, or `None`); Python
  `float` values are `PyFloat` with `nan`/`inf` distinguished from finite
  values, the finite values represented exactly as fractions (`Frac`,
  integer numerator over positive denominator, compared by
  cross-multiplication).  IEEE rounding is immaterial to the properties
  below, which compare decimal literals and fixed weight sums.
* A raised Python exception is `Option.none` (for pure helpers) or
  `Except.error` (for store operations, distinguishing `KeyError` from
  `ValueError`).
* `hashlib.sha256` content digests are modelled by their preimage key
  tuples: the engine only ever compares digests for equality, and the
  digest of the joined key string is equal iff the key tuple is
  (collision-freeness of SHA-256 is assumed as an idealization).
* String manipulation is implemented over character lists so that every
  definition evaluates inside the kernel.
-/

/-! ## Exact fractions (kernel-evaluable stand-in for Python float values) -/

/-- An exact fraction with positive denominator (not necessarily reduced);
all comparisons cross-multiply, so reduction is unnecessary. -/
structure Frac where
  num : ℤ
  den : ℤ
deriving DecidableEq, Repr

/-- Embed an integer. -/
def Frac.ofInt (n : ℤ) : Frac := ⟨n, 1⟩

/-- Addition (no reduction). -/
def Frac.add (a b : Frac) : Frac := ⟨a.num * b.den + b.num * a.den, a.den * b.den⟩

/-- Multiplication (no reduction). -/
def Frac.mul (a b : Frac) : Frac := ⟨a.num * b.num, a.den * b.den⟩

/-- Negation. -/
def Frac.neg (a : Frac) : Frac := ⟨-a.num, a.den⟩

/-- Value equality by cross-multiplication. -/
def Frac.feq (a b : Frac) : Bool := a.num * b.den == b.num * a.den

/-- Value order by cross-multiplication (denominators are positive). -/
def Frac.fle (a b : Frac) : Bool := decide (a.num * b.den ≤ b.num * a.den)

/-- Strict positivity. -/
def Frac.fpos (a : Frac) : Bool := decide (0 < a.num)

/-- Minimum by value. -/
def Frac.fmin (a b : Frac) : Frac := if a.fle b then a else b

/-- Floor to an integer (denominators are positive, so `fdiv` is floor). -/
def Frac.floor (a : Frac) : ℤ := Int.fdiv a.num a.den

/-! ## String helpers over character lists

Core `String` functions (`trim`, `toLower`, `replace`, `≤`, …) are
implemented over byte positions and do not evaluate inside the kernel, so
the embedding uses character-list equivalents. -/

/-- Python `str.strip()`. -/
def pyStrip (s : String) : String :=
  ⟨(s.toList.dropWhile Char.isWhitespace).reverse.dropWhile Char.isWhitespace |>.reverse⟩

/-- Python `str.lower()` (ASCII range, all that the sources exercise). -/
def pyLower (s : String) : String := ⟨s.toList.map Char.toLower⟩

/-- Python `str.upper()` (ASCII range). -/
def pyUpper (s : String) : String := ⟨s.toList.map Char.toUpper⟩

/-- Replace every occurrence of a single character by a string (the only
shape in which the sources call `str.replace`). -/
def replaceChar (s : String) (c : Char) (rep : String) : String :=
  ⟨s.toList.foldr (fun x acc => (if x = c then rep.toList else [x]) ++ acc) []⟩

/-- Code-point lexicographic order on character lists (Python string `<`). -/
def charsLe : List Char → List Char → Bool
  | [], _ => true
  | _ :: _, [] => false
  | a :: as, b :: bs =>
      if a.toNat < b.toNat then true
      else if b.toNat < a.toNat then false
      else charsLe as bs

/-- Code-point lexicographic order on strings. -/
def strLe (a b : String) : Bool := charsLe a.toList b.toList

/-- Insert into a sorted list (stable insertion sort step). -/
def insSorted (le : α → α → Bool) (x : α) : List α → List α
  | [] => [x]
  | y :: ys => if le x y then x :: y :: ys else y :: insSorted le x ys

/-- Stable insertion sort (kernel-evaluable stand-in for Python `sorted`). -/
def sortBy (le : α → α → Bool) : List α → List α
  | [] => []
  | x :: xs => insSorted le x (sortBy le xs)

/-- Decimal digit list to natural number. -/
def digitsToNat (ds : List Char) : ℕ :=
  ds.foldl (fun acc c => acc * 10 + (c.toNat - '0'.toNat)) 0

/-- Render a natural number zero-padded to a given width (as `strftime`
`%Y`/`%m` do). -/
def padNat (width n : ℕ) : String :=
  let s := toString n
  String.mk (List.replicate (width - s.toList.length) '0') ++ s

/-! ## Python scalar values -/

/-- Python float values: `nan`, signed infinities, or a finite value. -/
inductive PyFloat where
  | nan : PyFloat
  | inf : PyFloat
  | ninf : PyFloat
  | fin : Frac → PyFloat
deriving DecidableEq, Repr

/-- Python `==` on floats: `nan` is not equal to anything, including itself;
finite values compare by value. -/
def PyFloat.peq : PyFloat → PyFloat → Bool
  | .nan, _ => false
  | _, .nan => false
  | .inf, .inf => true
  | .ninf, .ninf => true
  | .fin a, .fin b => a.feq b
  | _, _ => false

/-- Python `>` against zero, as used for FX rates. -/
def PyFloat.posit : PyFloat → Bool
  | .nan => false
  | .inf => true
  | .ninf => false
  | .fin q => q.fpos

/-- A Python scalar cell value as found in a pandas row: a string, a float,
or `None`. -/
inductive PyVal where
  | vstr : String → PyVal
  | vfloat : PyFloat → PyVal
  | vnone : PyVal
deriving DecidableEq, Repr

/-- Stand-in for Python `repr` of a finite float: reduce the fraction, then
render integral values as Python does (`100.0`) and others canonically.
The engine only compares these strings for equality, so any function
injective on values is adequate. -/
def fracStr (q : Frac) : String :=
  let g : ℤ := (Int.gcd q.num q.den : ℤ)
  let n := Int.fdiv q.num g
  let d := Int.fdiv q.den g
  if d = 1 then toString n ++ ".0"
  else toString n ++ "d" ++ toString d

/-- Python `str` applied to a cell value. -/
def PyVal.pstr : PyVal → String
  | .vstr s => s
  | .vfloat .nan => "nan"
  | .vfloat .inf => "inf"
  | .vfloat .ninf => "-inf"
  | .vfloat (.fin q) => fracStr q
  | .vnone => "None"

/-- Python `==` on cell values: cross-type comparisons are `False`,
`None == None` is `True`, float comparison is `PyFloat.peq`. -/
def PyVal.peq : PyVal → PyVal → Bool
  | .vstr a, .vstr b => a == b
  | .vfloat a, .vfloat b => a.peq b
  | .vnone, .vnone => true
  | _, _ => false

/-- Parse an unsigned decimal mantissa `digits [. digits]` (at least one
digit overall), returning its exact value and the remaining characters. -/
def parseMantissa (cs : List Char) : Option (Frac × List Char) :=
  let intPart := cs.takeWhile Char.isDigit
  let rest := cs.dropWhile Char.isDigit
  match rest with
  | '.' :: rest' =>
      let fracPart := rest'.takeWhile Char.isDigit
      let rest'' := rest'.dropWhile Char.isDigit
      if intPart.isEmpty ∧ fracPart.isEmpty then none
      else
        some (⟨(digitsToNat intPart : ℤ) * (10 : ℤ) ^ fracPart.length +
          (digitsToNat fracPart : ℤ), (10 : ℤ) ^ fracPart.length⟩, rest'')
  | _ =>
      if intPart.isEmpty then none
      else some (⟨(digitsToNat intPart : ℤ), 1⟩, rest)

/-- Parse an optional exponent suffix `(e|E) [sign] digits`. -/
def parseExponent (cs : List Char) : Option (ℤ × List Char) :=
  match cs with
  | 'e' :: rest | 'E' :: rest =>
      let (sign, rest') : ℤ × List Char :=
        match rest with
        | '+' :: r => (1, r)
        | '-' :: r => (-1, r)
        | r => (1, r)
      let ds := rest'.takeWhile Char.isDigit
      let rest'' := rest'.dropWhile Char.isDigit
      if ds.isEmpty then none else some (sign * (digitsToNat ds : ℤ), rest'')
  | _ => some (0, cs)

/-- Scale a fraction by a signed power of ten. -/
def Frac.scale10 (q : Frac) (ex : ℤ) : Frac :=
  if 0 ≤ ex then ⟨q.num * (10 : ℤ) ^ ex.toNat, q.den⟩
  else ⟨q.num, q.den * (10 : ℤ) ^ (-ex).toNat⟩

/-- Python `float(s)` on a string: strips whitespace, accepts `nan`, signed
infinities, and decimal literals with optional exponent; anything else
raises (`none`). -/
def parsePyFloat (s : String) : Option PyFloat :=
  let t := (pyLower (pyStrip s)).toList
  let (neg, body) : Bool × List Char :=
    match t with
    | '-' :: r => (true, r)
    | '+' :: r => (false, r)
    | r => (false, r)
  if body = "nan".toList then some .nan
  else if body = "inf".toList ∨ body = "infinity".toList then
    some (if neg then .ninf else .inf)
  else
    match parseMantissa body with
    | none => none
    | some (m, rest) =>
        match parseExponent rest with
        | none => none
        | some (ex, rest') =>
            if rest'.isEmpty then
              let mag := m.scale10 ex
              some (.fin (if neg then mag.neg else mag))
            else none

/-- Python `float(v)` applied to a cell value: identity on floats, string
parse on strings, raises on `None`. -/
def PyVal.toFloat : PyVal → Option PyFloat
  | .vfloat x => some x
  | .vstr s => parsePyFloat s
  | .vnone => none

/-! ## Dates (`datetime.fromisoformat`, `date_diff_days`) -/

/-- A calendar date, as carried by a parsed `datetime`. -/
structure PyDate where
  year : ℕ
  month : ℕ
  day : ℕ
deriving DecidableEq, Repr

/-- Leap year rule of the proleptic Gregorian calendar. -/
def isLeap (y : ℕ) : Bool :=
  (y % 4 == 0 && y % 100 != 0) || y % 400 == 0

/-- Days in a month. -/
def daysInMonth (y m : ℕ) : ℕ :=
  if m = 2 then (if isLeap y then 29 else 28)
  else if m = 4 ∨ m = 6 ∨ m = 9 ∨ m = 11 then 30
  else 31

/-- `PyDate` validity as enforced by `datetime`. -/
def PyDate.valid (d : PyDate) : Bool :=
  1 ≤ d.year && d.year ≤ 9999 && 1 ≤ d.month && d.month ≤ 12 &&
    1 ≤ d.day && d.day ≤ daysInMonth d.year d.month

/-- Serial day number of a civil date (days-from-civil algorithm), so that
date subtraction is serial-number subtraction. -/
def PyDate.serial (d : PyDate) : ℤ :=
  let y : ℤ := if d.month ≤ 2 then (d.year : ℤ) - 1 else (d.year : ℤ)
  let era : ℤ := Int.fdiv y 400
  let yoe : ℤ := y - era * 400
  let mp : ℤ := if d.month > 2 then (d.month : ℤ) - 3 else (d.month : ℤ) + 9
  let doy : ℤ := Int.fdiv (153 * mp + 2) 5 + (d.day : ℤ) - 1
  let doe : ℤ := yoe * 365 + Int.fdiv yoe 4 - Int.fdiv yoe 100 + doy
  era * 146097 + doe - 719468

/-- Check that every character is a digit. -/
def allDigits (cs : List Char) : Bool := cs.all Char.isDigit

/-- Parse the extended-format date part `YYYY-MM-DD` of an ISO string. -/
def parseIsoDatePart (cs : List Char) : Option PyDate :=
  match cs with
  | [y1, y2, y3, y4, '-', m1, m2, '-', d1, d2] =>
      if allDigits [y1, y2, y3, y4, m1, m2, d1, d2] then
        let d : PyDate :=
          { year := digitsToNat [y1, y2, y3, y4],
            month := digitsToNat [m1, m2],
            day := digitsToNat [d1, d2] }
        if d.valid then some d else none
      else none
  | _ => none

/-- Parse a two-digit group. -/
def parse2 (cs : List Char) : Option (ℕ × List Char) :=
  match cs with
  | a :: b :: rest => if a.isDigit && b.isDigit then some (digitsToNat [a, b], rest) else none
  | _ => none

/-- Validate the `[.ffffff]` fraction tail. -/
def parseFrac : List Char → Option (List Char)
  | '.' :: rest =>
      let ds := rest.takeWhile Char.isDigit
      if ds.isEmpty ∨ ds.length > 6 then none else some (rest.dropWhile Char.isDigit)
  | cs => some cs

/-- Parse `HH[:MM[:SS[.ffffff]]]`, validating ranges, returning the rest. -/
def parseTimeCore (cs : List Char) : Option (List Char) := do
  let (h, r1) ← parse2 cs
  if h ≥ 24 then none else
  match r1 with
  | ':' :: r2 => do
      let (m, r3) ← parse2 r2
      if m ≥ 60 then none else
      match r3 with
      | ':' :: r4 => do
          let (s, r5) ← parse2 r4
          if s ≥ 60 then none else parseFrac r5
      | _ => some r3
  | _ => some r1

/-- Validate a timezone suffix: empty, `Z`, or `±HH:MM[:SS[.ffffff]]`. -/
def parseTz (cs : List Char) : Bool :=
  match cs with
  | [] => true
  | ['Z'] => true
  | '+' :: rest | '-' :: rest =>
      (match parseTimeCore rest with
       | some [] => true
       | _ => false)
  | _ => false

/-- Model of Python 3.11 `datetime.fromisoformat`: extended-format date,
optionally followed by a single separator character, a time, and a timezone
offset.  Returns the civil date (`.date()` of the parsed value); time and
offset are validated but do not shift the stored civil date.  (The rarely
used basic formats `YYYYMMDD`/`HHMMSS` are not modelled.) -/
def fromisoformat (s : String) : Option PyDate :=
  let cs := s.toList
  if cs.length ≤ 10 then parseIsoDatePart cs
  else do
    let d ← parseIsoDatePart (cs.take 10)
    -- CPython splits at index 10 and ignores which separator character sits there.
    let t := cs.drop 11
    match parseTimeCore t with
    | some rest => if parseTz rest then some d else none
    | none => none

/-- Modelled subset of the generic `pandas.to_datetime` fallback: ISO
formats plus slash-separated `YYYY/MM/DD`.  (pandas accepts further formats;
none of the claims depends on them.) -/
def pdToDatetime (s : String) : Option PyDate :=
  match fromisoformat s with
  | some d => some d
  | none =>
      match s.toList with
      | [y1, y2, y3, y4, '/', m1, m2, '/', d1, d2] =>
          if allDigits [y1, y2, y3, y4, m1, m2, d1, d2] then
            let d : PyDate :=
              { year := digitsToNat [y1, y2, y3, y4],
                month := digitsToNat [m1, m2],
                day := digitsToNat [d1, d2] }
            if d.valid then some d else none
          else none
      | _ => none

/-- `formatting.date_diff_days`: parse both strings with `fromisoformat`
(raising on failure) and return the absolute day gap of the date parts. -/
def date_diff_days (a b : String) : Option ℤ := do
  let da ← fromisoformat a
  let db ← fromisoformat b
  some |da.serial - db.serial|

/-- `strftime("%Y-%m")`. -/
def PyDate.fmtYM (d : PyDate) : String :=
  padNat 4 d.year ++ "-" ++ padNat 2 d.month

/-! ## `rules.py` constants -/

/-- `rules.FUZZY_WEIGHTS` entry `merchant_ref` (fixed configuration). -/
def W_MERCHANT_REF : Frac := ⟨5, 10⟩

/-- `rules.FUZZY_WEIGHTS` entry `amounts`. -/
def W_AMOUNTS : Frac := ⟨2, 10⟩

/-- `rules.FUZZY_WEIGHTS` entry `status`. -/
def W_STATUS : Frac := ⟨1, 10⟩

/-- `rules.FUZZY_WEIGHTS` entry `client_id`. -/
def W_CLIENT_ID : Frac := ⟨1, 10⟩

/-- `rules.FUZZY_WEIGHTS` entry `payment_method`. -/
def W_PAYMENT_METHOD : Frac := ⟨1, 10⟩

/-- `rules.FUZZY_THRESHOLD`. -/
def FUZZY_THRESHOLD : Frac := ⟨9, 10⟩

/-- `rules.BACKDATE_WINDOW_DAYS`. -/
def BACKDATE_WINDOW_DAYS : ℤ := 3

/-- `rules.STATUS_NORMALIZATION` lookup with the default used by
`_norm_status`. -/
def statusNormalization (s : String) : Option String :=
  if s = "captured" ∨ s = "confirmed" ∨ s = "settled" then some "SUCCESS" else none

/-! ## `reconciliation.py` -/

/-- One normalized source row.  Only the columns the engine reads are
carried (`settlement_date`, `client_name`, `description`, `settlement_bank`
and `psp_txn_id` are never read by `reconcile`). -/
structure Row where
  merchant_ref : PyVal
  gross_amount : PyVal
  currency : PyVal
  processing_fee : PyVal
  net_payout : PyVal
  transaction_date : PyVal
  client_id : PyVal
  status : PyVal
  payment_method : PyVal
  bank_country : PyVal
  fx_rate : PyVal
deriving DecidableEq, Repr

/-- `_norm_status`: lowercase/strip lookup in `STATUS_NORMALIZATION`,
defaulting to the uppercased status. -/
def norm_status (status : String) : String :=
  match statusNormalization (pyLower (pyStrip status)) with
  | some v => v
  | none => pyUpper status

/-- The content-digest key tuple of `_hash_row` (the SHA-256 digest is
modelled by its preimage; the engine only compares digests for equality). -/
def hash_row (r : Row) : List String :=
  [r.merchant_ref.pstr,
   r.gross_amount.pstr,
   r.currency.pstr,
   r.processing_fee.pstr,
   r.net_payout.pstr,
   ⟨r.transaction_date.pstr.toList.take 10⟩,
   r.client_id.pstr]

/-- Python `round(q, 4)` (values reached here are exact multiples of `1/10`,
so tie behaviour is immaterial). -/
def round4 (q : Frac) : Frac :=
  ⟨(Frac.add (Frac.mul q ⟨10000, 1⟩) ⟨1, 2⟩).floor, 10000⟩

/-- `_score_fuzzy`: weighted pairwise similarity; the three amount fields
are coerced with `float` and can raise (`none`). -/
def score_fuzzy (a b : Row) : Option Frac := do
  let ga ← a.gross_amount.toFloat
  let gb ← b.gross_amount.toFloat
  let fa ← a.processing_fee.toFloat
  let fb ← b.processing_fee.toFloat
  let na ← a.net_payout.toFloat
  let nb ← b.net_payout.toFloat
  let s0 : Frac := if a.merchant_ref.peq b.merchant_ref then W_MERCHANT_REF else ⟨0, 1⟩
  let s1 : Frac := if ga.peq gb && fa.peq fb && na.peq nb then s0.add W_AMOUNTS else s0
  let s2 : Frac := if norm_status a.status.pstr = norm_status b.status.pstr then s1.add W_STATUS else s1
  let s3 : Frac := if a.client_id.pstr = b.client_id.pstr then s2.add W_CLIENT_ID else s2
  let s4 : Frac := if a.payment_method.pstr = b.payment_method.pstr then s3.add W_PAYMENT_METHOD else s3
  some (round4 s4)

/-- `_fx_can_handle`: trivially true on a single shared currency, otherwise
all three FX rates must be present, not `nan`, and coerce to a strictly
positive float; coercion failures are caught and yield `false`. -/
def fx_can_handle (i e p : Row) : Bool :=
  if i.currency.pstr = e.currency.pstr ∧ e.currency.pstr = p.currency.pstr then true
  else
    let fxs := [i.fx_rate, e.fx_rate, p.fx_rate]
    if ¬ fxs.all (fun v => v ≠ PyVal.vnone ∧ v.pstr ≠ "nan") then false
    else
      fxs.all (fun v =>
        match v.toFloat with
        | some x => x.posit
        | none => false)

/-- The per-row month candidate tried by the `_month_from_sources` loop:
`none` when the loop would `continue` past this row. -/
def month_of_row (r : Row) : Option String :=
  let raw := pyStrip r.transaction_date.pstr
  if raw.toList.isEmpty then none
  else if 7 ≤ raw.toList.length ∧ raw.toList.get? 4 = some '-' then
    some ⟨raw.toList.take 7⟩
  else
    match fromisoformat (replaceChar raw 'Z' "+00:00") with
    | some d => some d.fmtYM
    | none =>
        match pdToDatetime raw with
        | some d => some d.fmtYM
        | none => none

/-- `_month_from_sources`: first usable month among internal, erp, psp;
`"unknown"` when none is usable. -/
def month_from_sources (i e p : Option Row) : String :=
  match i.bind month_of_row with
  | some m => m
  | none =>
      match e.bind month_of_row with
      | some m => m
      | none =>
          match p.bind month_of_row with
          | some m => m
          | none => "unknown"

/-- `schemas.FinalStatus`. -/
inductive FinalStatus where
  | good : FinalStatus
  | doubtful : FinalStatus
deriving DecidableEq, Repr

/-- `schemas.StageResult` (all flags default `False`). -/
structure StageResult where
  exact_hash : Bool := false
  fuzzy : Bool := false
  three_way : Bool := false
  backdated : Bool := false
  fx_handled : Bool := false
deriving DecidableEq, Repr

/-- The `sources_present` object of the decision trace. -/
structure TraceSources where
  internal : Bool
  erp : Bool
  psp : Bool
deriving DecidableEq, Repr

/-- The `exact_hash` object of the decision trace (digests modelled by their
key tuples). -/
structure TraceExact where
  matched : Bool
  skipped : Bool := false
  hashes : Option (List String × List String × List String) := none
deriving DecidableEq, Repr

/-- The `fuzzy` object of the decision trace. -/
structure TraceFuzzy where
  score : Option Frac
  threshold : Frac
  skipped : Bool := false
  pair_scores : Option (Frac × Frac × Frac) := none
deriving DecidableEq, Repr

/-- The `three_way` object of the decision trace. -/
structure TraceThreeWay where
  presence_check : Bool
  amount_check : Bool
  identity_check : Bool
deriving DecidableEq, Repr

/-- The `backdated` object of the decision trace. -/
structure TraceBackdated where
  window_days : ℤ
  max_gap_days : Option ℤ
  pair_gaps_days : Option (ℤ × ℤ × ℤ)
deriving DecidableEq, Repr

/-- The `fx` object of the decision trace. -/
structure TraceFx where
  handled : Bool
  detail : String
  currencies : List String
  rates : Option (PyVal × PyVal × PyVal)
deriving DecidableEq, Repr

/-- The structured audit trace of one decision. -/
structure Trace where
  sources_present : TraceSources
  exact_hash : TraceExact
  fuzzy : TraceFuzzy
  three_way : TraceThreeWay
  backdated : TraceBackdated
  fx : TraceFx
deriving DecidableEq, Repr

/-- `schemas.MatchDecision` as produced by the engine. -/
structure MatchDecision where
  run_id : String
  merchant_ref : String
  final_status : FinalStatus
  reason_codes : List String
  stage_results : StageResult
  transaction_month : String
  fuzzy_score : Option Frac
  backdated_gap_days : Option ℤ
  fx_detail : String
  trace_json : Trace
deriving DecidableEq, Repr

/-- `schemas.ExceptionCase` as produced by the engine (the `uuid4`
identifier is modelled by the reference key, which is unique within a
run). -/
structure EngineException where
  id : String
  run_id : String
  merchant_ref : String
  severity : String
  reason_codes : List String
  state : String
deriving DecidableEq, Repr

/-- `reconciliation.ValidationResult`. -/
structure ValidationResult where
  decisions : List MatchDecision
  exceptions : List EngineException
deriving DecidableEq, Repr

/-- Decision produced by the missing-sources branch of `reconcile`. -/
def missingDecision (run_id merchant_ref : String) (i e p : Option Row) : MatchDecision :=
  { run_id := run_id
    merchant_ref := merchant_ref
    final_status := .doubtful
    reason_codes := ["MISSING_IN_ONE_OR_MORE_SOURCES"]
    stage_results := { three_way := false }
    transaction_month := month_from_sources i e p
    fuzzy_score := none
    backdated_gap_days := none
    fx_detail := "not_applicable_missing_sources"
    trace_json :=
      { sources_present := ⟨i.isSome, e.isSome, p.isSome⟩
        exact_hash := { matched := false, skipped := true }
        fuzzy := { score := none, threshold := FUZZY_THRESHOLD, skipped := true }
        three_way := ⟨false, false, false⟩
        backdated := ⟨BACKDATE_WINDOW_DAYS, none, none⟩
        fx := ⟨false, "not_applicable_missing_sources", [], none⟩ } }

/-- The amount equality chain of the three-way validation (each `float`
coercion can raise). -/
def amount_check3 (i e p : Row) : Option Bool := do
  let gi ← i.gross_amount.toFloat
  let ge ← e.gross_amount.toFloat
  let gp ← p.gross_amount.toFloat
  let fi ← i.processing_fee.toFloat
  let fe ← e.processing_fee.toFloat
  let fp ← p.processing_fee.toFloat
  let ni ← i.net_payout.toFloat
  let ne ← e.net_payout.toFloat
  let np ← p.net_payout.toFloat
  some (gi.peq ge && ge.peq gp && fi.peq fe && fe.peq fp && ni.peq ne && ne.peq np)

/-- The identity equality chain of the three-way validation. -/
def identity_check3 (i e p : Row) : Bool :=
  i.client_id.pstr = e.client_id.pstr ∧ e.client_id.pstr = p.client_id.pstr ∧
    i.currency.pstr = e.currency.pstr ∧ e.currency.pstr = p.currency.pstr ∧
    i.bank_country.pstr = e.bank_country.pstr ∧ e.bank_country.pstr = p.bank_country.pstr

/-- The fuzzy stage: trivially true with score `1.0` when the exact hash
matched, otherwise the three pairwise scores with minimum aggregation and
per-pair thresholding. -/
def fuzzy_stage (i e p : Row) (exact : Bool) : Option (Bool × Frac × Option (Frac × Frac × Frac)) :=
  if exact then some (true, ⟨1, 1⟩, none)
  else do
    let ie ← score_fuzzy i e
    let ip ← score_fuzzy i p
    let ep ← score_fuzzy e p
    some (FUZZY_THRESHOLD.fle ie && FUZZY_THRESHOLD.fle ip && FUZZY_THRESHOLD.fle ep,
      ie.fmin (ip.fmin ep), some (ie, ip, ep))

/-- The all-sources-present branch of the `reconcile` loop body. -/
def reconcilePresent (run_id merchant_ref : String) (i e p : Row) : Option MatchDecision := do
  let exact : Bool := hash_row i = hash_row e ∧ hash_row e = hash_row p
  let (fuzzyOk, fscore, pairScores) ← fuzzy_stage i e p exact
  let ac ← amount_check3 i e p
  let ic := identity_check3 i e p
  let threeWay := ac && ic
  let gie ← date_diff_days i.transaction_date.pstr e.transaction_date.pstr
  let gip ← date_diff_days i.transaction_date.pstr p.transaction_date.pstr
  let gep ← date_diff_days e.transaction_date.pstr p.transaction_date.pstr
  let maxGap := max gie (max gip gep)
  let backdatedOk := decide (maxGap ≤ BACKDATE_WINDOW_DAYS)
  let fxOk := fx_can_handle i e p
  let fxDetail := if fxOk then "handled" else "insufficient_fx_data"
  let reasons :=
    (if ¬ exact then ["EXACT_HASH_MISMATCH"] else []) ++
    (if ¬ fuzzyOk then ["FUZZY_THRESHOLD_NOT_MET"] else []) ++
    (if ¬ threeWay then ["THREE_WAY_VALIDATION_FAILED"] else []) ++
    (if ¬ backdatedOk then ["BACKDATED_WINDOW_EXCEEDED"] else []) ++
    (if ¬ fxOk then ["FX_DATA_INSUFFICIENT"] else [])
  some
    { run_id := run_id
      merchant_ref := merchant_ref
      final_status :=
        if fuzzyOk && threeWay && backdatedOk && fxOk then .good else .doubtful
      reason_codes := reasons
      stage_results :=
        { exact_hash := exact, fuzzy := fuzzyOk, three_way := threeWay,
          backdated := backdatedOk, fx_handled := fxOk }
      transaction_month := month_from_sources (some i) (some e) (some p)
      fuzzy_score := some fscore
      backdated_gap_days := some maxGap
      fx_detail := fxDetail
      trace_json :=
        { sources_present := ⟨true, true, true⟩
          exact_hash := { matched := exact, hashes := some (hash_row i, hash_row e, hash_row p) }
          fuzzy := { score := some fscore, threshold := FUZZY_THRESHOLD, pair_scores := pairScores }
          three_way := ⟨true, ac, ic⟩
          backdated := ⟨BACKDATE_WINDOW_DAYS, some maxGap, some (gie, gip, gep)⟩
          fx := ⟨fxOk, fxDetail, [i.currency.pstr, e.currency.pstr, p.currency.pstr],
            some (i.fx_rate, e.fx_rate, p.fx_rate)⟩ } }

/-- One iteration of the `reconcile` loop: the presence check routes to the
missing-sources decision (which never raises) or the full evaluation. -/
def reconcileRef (run_id merchant_ref : String) (i e p : Option Row) : Option MatchDecision :=
  match i, e, p with
  | some i', some e', some p' => reconcilePresent run_id merchant_ref i' e' p'
  | _, _, _ => some (missingDecision run_id merchant_ref i e p)

/-- Last row of a record set carrying the given reference key (the `dict`
comprehension index keeps the last assignment per key). -/
def rowFor (rows : List Row) (ref : String) : Option Row :=
  (rows.filter (fun r => r.merchant_ref.pstr = ref)).getLast?

/-- Sorted union of the reference keys of the three record sets
(`sorted(set(psp) | set(erp) | set(internal))`). -/
def allRefs (internal erp psp : List Row) : List String :=
  sortBy strLe (((psp ++ erp ++ internal).map (fun r => r.merchant_ref.pstr)).dedup)

/-- `reconcile`: evaluate every reference in sorted order, collecting one
decision per reference and one exception per doubtful decision; a raise in
any reference aborts the whole run (`none`). -/
def reconcile (run_id : String) (internal erp psp : List Row) : Option ValidationResult := do
  let ds ← (allRefs internal erp psp).mapM (fun ref =>
    reconcileRef run_id ref (rowFor internal ref) (rowFor erp ref) (rowFor psp ref))
  some
    { decisions := ds
      exceptions := (ds.filter (fun d => d.final_status = .doubtful)).map (fun d =>
          { id := d.merchant_ref
            run_id := run_id
            merchant_ref := d.merchant_ref
            severity := "medium"
            reason_codes := if d.reason_codes.isEmpty then ["MANUAL_REVIEW_REQUIRED"] else d.reason_codes
            state := "open" }) }

/-! ## Concrete rows used by witnesses and counterexamples -/

/-- A fully consistent USD row. -/
def rowA : Row :=
  { merchant_ref := .vstr "REF-A"
    gross_amount := .vfloat (.fin (.ofInt 100))
    currency := .vstr "USD"
    processing_fee := .vfloat (.fin (.ofInt 2))
    net_payout := .vfloat (.fin (.ofInt 98))
    transaction_date := .vstr "2026-03-01T00:00:00"
    client_id := .vstr "C1"
    status := .vstr "captured"
    payment_method := .vstr "card"
    bank_country := .vstr "US"
    fx_rate := .vnone }

/-- `rowA` reported one day later (breaks the exact hash, keeps all fuzzy
components equal). -/
def rowA2 : Row := { rowA with transaction_date := .vstr "2026-03-02T00:00:00" }

/-- A row whose `transaction_date` cannot be coerced by
`datetime.fromisoformat`. -/
def rowBadDate : Row :=
  { rowA with merchant_ref := .vstr "REF-B", transaction_date := .vstr "not-a-date" }

/-- `rowA` with an empty `transaction_date`. -/
def rowEmptyDate : Row := { rowA with transaction_date := .vstr "" }

/-- `rowA` dated `2026-03-05`. -/
def rowMar5 : Row := { rowA with transaction_date := .vstr "2026-03-05" }

/-- Fallback record for extracting the value of a succeeding evaluation. -/
def fallbackDecision : MatchDecision := missingDecision "" "" none none none

/-- The decision `reconcilePresent` computes on three identical copies of
`rowA`. -/
def decExactA : MatchDecision :=
  (reconcilePresent "run-1" "REF-A" rowA rowA rowA).getD fallbackDecision

/-- The decision `reconcilePresent` computes when the psp copy is `rowA2`. -/
def decFuzzyA : MatchDecision :=
  (reconcilePresent "run-1" "REF-A" rowA rowA rowA2).getD fallbackDecision

/-! ## Claims about the matching engine -/

/-- **C2** (code bug evidence): `reconcile` aborts the whole run when one
reference's `transaction_date` cannot be coerced — `date_diff_days` (and the
`float` coercions of `_score_fuzzy`/the amount check) raise outside any
per-reference handler, so no decision is produced for the well-formed
reference `REF-A` either; the same record sets without the malformed
`REF-B` row reconcile fine.  The claim (and the spec's failure semantics)
say the malformed reference should instead become DOUBTFUL with a reason
code, with all other references still decided. -/
theorem C2_malformed_reference_aborts_whole_run :
    reconcile "run-1" [rowA, rowBadDate] [rowA, rowBadDate] [rowA, rowBadDate] = none ∧
    (reconcile "run-1" [rowA] [rowA] [rowA]).isSome = true := by
  constructor <;> decide

/-- **C3**: for a reference with all three rows present (and no coercion
raise), the final status is GOOD iff the fuzzy, three-way, backdate and FX
stages all pass — the exact-hash flag does not occur in the condition — and
the reason codes are exactly the failing stages, rendered with the five
fixed tokens in the fixed order. -/
theorem C3_final_status_and_reason_codes (run ref : String) (i e p : Row)
    (d : MatchDecision) (h : reconcilePresent run ref i e p = some d) :
    (d.final_status = .good ↔
      (d.stage_results.fuzzy = true ∧ d.stage_results.three_way = true ∧
       d.stage_results.backdated = true ∧ d.stage_results.fx_handled = true)) ∧
    d.reason_codes =
      (if d.stage_results.exact_hash then [] else ["EXACT_HASH_MISMATCH"]) ++
      (if d.stage_results.fuzzy then [] else ["FUZZY_THRESHOLD_NOT_MET"]) ++
      (if d.stage_results.three_way then [] else ["THREE_WAY_VALIDATION_FAILED"]) ++
      (if d.stage_results.backdated then [] else ["BACKDATED_WINDOW_EXCEEDED"]) ++
      (if d.stage_results.fx_handled then [] else ["FX_DATA_INSUFFICIENT"]) := by
  simp only [reconcilePresent, Option.bind_eq_bind, Option.bind_eq_some] at h
  obtain ⟨⟨fz, fs, ps⟩, hfz, h⟩ := h
  obtain ⟨ac, hac, h⟩ := h
  obtain ⟨gie, hgie, h⟩ := h
  obtain ⟨gip, hgip, h⟩ := h
  obtain ⟨gep, hgep, h⟩ := h
  injection h with h
  subst h
  constructor
  · cases fz <;> cases ac <;> cases identity_check3 i e p <;>
      cases hbd : decide (max gie (max gip gep) ≤ BACKDATE_WINDOW_DAYS) <;>
      cases hfx : fx_can_handle i e p <;> simp_all
  · cases hex : decide (hash_row i = hash_row e ∧ hash_row e = hash_row p) <;>
      cases fz <;> cases ac <;> cases identity_check3 i e p <;>
      cases hbd : decide (max gie (max gip gep) ≤ BACKDATE_WINDOW_DAYS) <;>
      cases hfx : fx_can_handle i e p <;> simp_all

/-- Witness for C3 at three identical copies of `rowA`: the hypothesis
holds and the conclusion evaluates. -/
theorem C3_final_status_and_reason_codes_witness :
    (reconcilePresent "run-1" "REF-A" rowA rowA rowA = some decExactA) ∧
    ((decExactA.final_status = .good ↔
      (decExactA.stage_results.fuzzy = true ∧ decExactA.stage_results.three_way = true ∧
       decExactA.stage_results.backdated = true ∧ decExactA.stage_results.fx_handled = true)) ∧
    decExactA.reason_codes =
      (if decExactA.stage_results.exact_hash then [] else ["EXACT_HASH_MISMATCH"]) ++
      (if decExactA.stage_results.fuzzy then [] else ["FUZZY_THRESHOLD_NOT_MET"]) ++
      (if decExactA.stage_results.three_way then [] else ["THREE_WAY_VALIDATION_FAILED"]) ++
      (if decExactA.stage_results.backdated then [] else ["BACKDATED_WINDOW_EXCEEDED"]) ++
      (if decExactA.stage_results.fx_handled then [] else ["FX_DATA_INSUFFICIENT"])) :=
  ⟨by decide, C3_final_status_and_reason_codes "run-1" "REF-A" rowA rowA rowA decExactA (by decide)⟩

/-- **C5**: with all three rows present, when the exact hash fails the
fuzzy score is the minimum of the three pairwise weighted scores and the
fuzzy stage passes iff every pairwise score meets the `0.9` threshold; when
the exact hash passes the fuzzy stage is trivially true with score `1.0`. -/
theorem C5_fuzzy_minimum_and_threshold (run ref : String) (i e p : Row)
    (d : MatchDecision) (h : reconcilePresent run ref i e p = some d) :
    (d.stage_results.exact_hash = false →
      ∃ sie sip sep, score_fuzzy i e = some sie ∧ score_fuzzy i p = some sip ∧
        score_fuzzy e p = some sep ∧
        d.fuzzy_score = some (sie.fmin (sip.fmin sep)) ∧
        (d.stage_results.fuzzy = true ↔
          FUZZY_THRESHOLD.fle sie = true ∧ FUZZY_THRESHOLD.fle sip = true ∧
            FUZZY_THRESHOLD.fle sep = true)) ∧
    (d.stage_results.exact_hash = true →
      d.stage_results.fuzzy = true ∧ d.fuzzy_score = some ⟨1, 1⟩) := by
  simp only [reconcilePresent, Option.bind_eq_bind, Option.bind_eq_some] at h
  obtain ⟨⟨fz, fs, ps⟩, hfz, h⟩ := h
  obtain ⟨ac, hac, h⟩ := h
  obtain ⟨gie, hgie, h⟩ := h
  obtain ⟨gip, hgip, h⟩ := h
  obtain ⟨gep, hgep, h⟩ := h
  injection h with h
  subst h
  cases hex : decide (hash_row i = hash_row e ∧ hash_row e = hash_row p) with
  | false =>
      rw [hex] at hfz
      simp only [fuzzy_stage, Bool.false_eq_true, if_false, Option.bind_eq_bind,
        Option.bind_eq_some] at hfz
      obtain ⟨sie, hsie, sip, hsip, sep, hsep, hfz⟩ := hfz
      injection hfz with hfz
      rw [Prod.ext_iff] at hfz
      obtain ⟨h1, hfz⟩ := hfz
      rw [Prod.ext_iff] at hfz
      obtain ⟨h2, h3⟩ := hfz
      subst h1; subst h2; subst h3
      refine ⟨fun _ => ⟨sie, sip, sep, hsie, hsip, hsep, rfl, ?_⟩, fun hcontra => by simp_all⟩
      simp [and_assoc]
  | true =>
      rw [hex] at hfz
      simp only [fuzzy_stage, if_true] at hfz
      injection hfz with hfz
      rw [Prod.ext_iff] at hfz
      obtain ⟨h1, hfz⟩ := hfz
      rw [Prod.ext_iff] at hfz
      obtain ⟨h2, h3⟩ := hfz
      subst h1; subst h2; subst h3
      exact ⟨fun hcontra => by simp_all, fun _ => ⟨rfl, rfl⟩⟩

/-- Witness for C5 at `rowA, rowA, rowA2` (the shifted date breaks the
exact hash while every fuzzy component still matches). -/
theorem C5_fuzzy_minimum_and_threshold_witness :
    (reconcilePresent "run-1" "REF-A" rowA rowA rowA2 = some decFuzzyA) ∧
    ((decFuzzyA.stage_results.exact_hash = false →
      ∃ sie sip sep, score_fuzzy rowA rowA = some sie ∧ score_fuzzy rowA rowA2 = some sip ∧
        score_fuzzy rowA rowA2 = some sep ∧
        decFuzzyA.fuzzy_score = some (sie.fmin (sip.fmin sep)) ∧
        (decFuzzyA.stage_results.fuzzy = true ↔
          FUZZY_THRESHOLD.fle sie = true ∧ FUZZY_THRESHOLD.fle sip = true ∧
            FUZZY_THRESHOLD.fle sep = true)) ∧
    (decFuzzyA.stage_results.exact_hash = true →
      decFuzzyA.stage_results.fuzzy = true ∧ decFuzzyA.fuzzy_score = some ⟨1, 1⟩)) :=
  ⟨by decide, C5_fuzzy_minimum_and_threshold "run-1" "REF-A" rowA rowA rowA2 decFuzzyA (by decide)⟩

/-- **C6**: a reference with at least one source row missing yields
(without any raise, for every row content) a DOUBTFUL decision whose only
reason code is `MISSING_IN_ONE_OR_MORE_SOURCES`, all five stage flags
false, null fuzzy score and gap, a trace recording which sources were
present, and the exact-hash and fuzzy stages marked skipped. -/
theorem C6_missing_source_decision (run ref : String) (i e p : Option Row)
    (h : ¬(i.isSome = true ∧ e.isSome = true ∧ p.isSome = true)) :
    ∃ d, reconcileRef run ref i e p = some d ∧
      d.final_status = .doubtful ∧
      d.reason_codes = ["MISSING_IN_ONE_OR_MORE_SOURCES"] ∧
      d.stage_results = ⟨false, false, false, false, false⟩ ∧
      d.fuzzy_score = none ∧ d.backdated_gap_days = none ∧
      d.trace_json.sources_present = ⟨i.isSome, e.isSome, p.isSome⟩ ∧
      d.trace_json.exact_hash.skipped = true ∧
      d.trace_json.fuzzy.skipped = true := by
  match i, e, p with
  | some _, some _, some _ => exact absurd ⟨rfl, rfl, rfl⟩ h
  | none, _, _ | some _, none, _ | some _, some _, none =>
      exact ⟨_, rfl, rfl, rfl, rfl, rfl, rfl, rfl, rfl, rfl⟩

/-- Witness for C6 with the erp row missing. -/
theorem C6_missing_source_decision_witness :
    ¬((some rowA).isSome = true ∧ (none : Option Row).isSome = true ∧
        (some rowMar5).isSome = true) ∧
    (∃ d, reconcileRef "run-1" "REF-A" (some rowA) none (some rowMar5) = some d ∧
      d.final_status = .doubtful ∧
      d.reason_codes = ["MISSING_IN_ONE_OR_MORE_SOURCES"] ∧
      d.stage_results = ⟨false, false, false, false, false⟩ ∧
      d.fuzzy_score = none ∧ d.backdated_gap_days = none ∧
      d.trace_json.sources_present =
        ⟨(some rowA).isSome, (none : Option Row).isSome, (some rowMar5).isSome⟩ ∧
      d.trace_json.exact_hash.skipped = true ∧
      d.trace_json.fuzzy.skipped = true) :=
  ⟨by decide, C6_missing_source_decision "run-1" "REF-A" (some rowA) none (some rowMar5) (by decide)⟩

/-- **C9** (counterexample): the internal row is present but its
`transaction_date` is empty, so by the claim the month should be
`"unknown"`; the code instead falls through to the erp row and returns its
month `"2026-03"`. -/
theorem C9_month_counterexample :
    rowEmptyDate.transaction_date = .vstr "" ∧
    month_from_sources (some rowEmptyDate) (some rowMar5) none = "2026-03" ∧
    month_from_sources (some rowEmptyDate) (some rowMar5) none ≠ "unknown" :=
  ⟨rfl, by decide, by decide⟩

/-- **C9** (amended): the transaction month is taken from the *first row in
internal→erp→psp order that is present and has a usable date* — a row whose
trimmed `transaction_date` is empty, or parses under neither the literal
7-character `YYYY-MM` prefix rule (length ≥ 7 with `-` at index 4) nor
ISO/generic date parsing, is skipped rather than producing `"unknown"`;
`"unknown"` results only when no row yields a month. -/
theorem C9_month_first_usable_row (i e p : Option Row) :
    month_from_sources i e p =
      (([i, e, p].filterMap (fun r => r.bind month_of_row)).headD "unknown") := by
  cases hi : i.bind month_of_row <;> cases he : e.bind month_of_row <;>
    cases hp : p.bind month_of_row <;>
    simp [month_from_sources, hi, he, hp]

/-! ## `storage.py` data model

The persisted JSON document (`db.json`) is modelled by `Data`; Python
dictionaries are association lists whose insert replaces in place (as a
`dict` assignment does).  The audit ledger is modelled by its action tags
(payloads are never read back by any summary).  The `files`, `reviews`,
`ai_feedback` and `announcements` collections feed no claim and are
omitted. -/

/-- `dict` lookup. -/
def alistFind (l : List (String × α)) (k : String) : Option α :=
  (l.find? (fun kv => kv.1 == k)).map (·.2)

/-- `dict` assignment: replace in place when the key exists, append
otherwise. -/
def alistInsert (l : List (String × α)) (k : String) (v : α) : List (String × α) :=
  match l with
  | [] => [(k, v)]
  | (k', v') :: rest =>
      if k' == k then (k, v) :: rest else (k', v') :: alistInsert rest k v

/-- Update the value at a key only when the key exists (mutating an entry
of an existing `dict` without ever adding a key). -/
def alistUpdate (l : List (String × α)) (k : String) (f : α → α) : List (String × α) :=
  l.map (fun kv => if kv.1 == k then (kv.1, f kv.2) else kv)

/-- A decision row as persisted by `add_decisions` and re-read through
`MatchDecision(**row)`.  Only the fields the aggregators read are carried;
the trace is represented by its `sources_present` object (`[]` both when
`trace_json` is `None` and when the key is absent, matching the
`or {}` / `.get(..., {})` defaults). -/
structure StoredDecision where
  merchant_ref : String
  final_status : FinalStatus
  reason_codes : List String
  transaction_month : Option String
  sources_present : List (String × Bool) := []
deriving DecidableEq, Repr

/-- An exception row as persisted. -/
structure StoredException where
  id : String
  merchant_ref : String
  severity : String
  reason_codes : List String
  state : String
deriving DecidableEq, Repr

/-- `MonthlySubmissionState`: the only persisted workflow memory of the
run×month scope. -/
structure MonthState where
  notified_to_source : Bool := false
  journal_created : Bool := false
  submitted_to_erp : Bool := false
  notified_at : Option String := none
  journal_created_at : Option String := none
  submitted_at : Option String := none
  doubtful_addressed_at : Option String := none
deriving DecidableEq, Repr

/-- `DailyOpsState`: the only persisted memory of the run scope. -/
structure DailyState where
  closed_at : Option String := none
  business_date : Option String := none
deriving DecidableEq, Repr

/-- `MonthlyCloseState`: the only persisted memory of the cross-run month
scope. -/
structure CloseState where
  journal_created : Bool := false
  submitted_to_erp : Bool := false
  journal_created_at : Option String := none
  submitted_at : Option String := none
deriving DecidableEq, Repr

/-- A run row (status carried as its JSON value string; `created_at` as its
ISO timestamp, whose lexicographic order is its chronological order). -/
structure RunRec where
  id : String
  status : String
  stage : String
  created_at : String
deriving DecidableEq, Repr

/-- The persisted store (`db.json`). -/
structure Data where
  runs : List (String × RunRec) := []
  decisions : List (String × List StoredDecision) := []
  exceptions : List (String × List StoredException) := []
  monthly_submissions : List (String × List (String × MonthState)) := []
  daily_ops : List (String × DailyState) := []
  monthly_close : List (String × CloseState) := []
  audit_events : List String := []
deriving DecidableEq, Repr

/-- `data["decisions"].get(run_id, [])`. -/
def decisionsOf (data : Data) (run : String) : List StoredDecision :=
  (alistFind data.decisions run).getD []

/-- `data["exceptions"].get(run_id, [])`. -/
def exceptionsOf (data : Data) (run : String) : List StoredException :=
  (alistFind data.exceptions run).getD []

/-- `decision.transaction_month or "unknown"` (Python `or`: `None` and the
empty string both fall back). -/
def monthKeyOf (d : StoredDecision) : String :=
  match d.transaction_month with
  | none => "unknown"
  | some m => if m = "" then "unknown" else m

/-- The per-run exception-state index `{merchant_ref: state.lower()}` with
default `"open"` (the `dict` comprehension keeps the last row per
reference). -/
def excState (items : List StoredException) (ref : String) : String :=
  match (items.filter (fun it => it.merchant_ref == ref)).getLast? with
  | some it => pyLower it.state
  | none => "open"

/-- The addressed states `{verified, approved, resolved}`. -/
def isAddressed (s : String) : Bool :=
  s == "verified" || s == "approved" || s == "resolved"

/-- Decisions of a run falling in a month. -/
def monthDecisions (data : Data) (run month : String) : List StoredDecision :=
  (decisionsOf data run).filter (fun d => monthKeyOf d == month)

/-- `total_transactions` of a month (extensional reading of the
`_monthly_index` fold: each decision increments exactly the counters of its
own month). -/
def statTotal (data : Data) (run month : String) : ℕ :=
  (monthDecisions data run month).length

/-- `good_transactions` of a month. -/
def statGood (data : Data) (run month : String) : ℕ :=
  ((monthDecisions data run month).filter (fun d => d.final_status == .good)).length

/-- `doubtful_transactions` of a month. -/
def statDoubtful (data : Data) (run month : String) : ℕ :=
  ((monthDecisions data run month).filter (fun d => d.final_status == .doubtful)).length

/-- `addressed_doubtful` of a month. -/
def statAddressed (data : Data) (run month : String) : ℕ :=
  ((monthDecisions data run month).filter (fun d =>
    d.final_status == .doubtful && isAddressed (excState (exceptionsOf data run) d.merchant_ref))).length

/-- `unresolved_doubtful` of a month. -/
def statUnresolved (data : Data) (run month : String) : ℕ :=
  ((monthDecisions data run month).filter (fun d =>
    d.final_status == .doubtful && ¬ isAddressed (excState (exceptionsOf data run) d.merchant_ref))).length

/-- The reference set of a month (`refs_by_month`). -/
def refsOfMonth (data : Data) (run month : String) : List String :=
  (monthDecisions data run month).map (·.merchant_ref)

/-- The key set of the `_monthly_index` stats dictionary. -/
def decisionMonths (data : Data) (run : String) : List String :=
  ((decisionsOf data run).map monthKeyOf).dedup

/-- The key set of `data["monthly_submissions"][run_id]`. -/
def stateMonths (data : Data) (run : String) : List String :=
  ((alistFind data.monthly_submissions run).getD []).map (·.1)

/-- `sorted(set(stats) | set(state_by_month))`. -/
def monthsOf (data : Data) (run : String) : List String :=
  sortBy strLe ((decisionMonths data run ++ stateMonths data run).dedup)

/-- `schemas.MonthlyDoubtfulDetail`. -/
structure MonthlyDoubtfulDetail where
  merchant_ref : String
  state : String
  reason_codes : List String
  missing_sources : List String
  recipients : List String
deriving DecidableEq, Repr

/-- `schemas.MonthlyAlertRecipient`. -/
structure MonthlyAlertRecipient where
  recipient_key : String
  recipient_label : String
  reason : String
  count : ℕ
  merchant_refs : List String
deriving DecidableEq, Repr

/-- The sources a doubtful decision's trace marks explicitly absent
(`raw_sources.get(source) is False`). -/
def missingSourcesOf (d : StoredDecision) : List String :=
  ["internal", "erp", "psp"].filter (fun s => alistFind d.sources_present s == some false)

/-- `_derive_alert_recipients`: map each missing source to its recipient;
`reconciliation_ops` when none.  The three keys are emitted in lexicographic
order, which is what `sorted(recipients)` produces. -/
def derive_alert_recipients (missing : List String) : List String :=
  let r :=
    (if missing.contains "erp" then ["cashier_erp"] else []) ++
    (if missing.contains "internal" then ["internal_backoffice"] else []) ++
    (if missing.contains "psp" then ["psp_provider"] else [])
  if r.isEmpty then ["reconciliation_ops"] else r

/-- `RECIPIENT_LABELS` with the `.get(key, key)` default. -/
def recipientLabel (k : String) : String :=
  if k = "psp_provider" then "PSP Provider"
  else if k = "internal_backoffice" then "Internal Backoffice"
  else if k = "cashier_erp" then "Cashier (ERP)"
  else if k = "reconciliation_ops" then "Reconciliation Ops"
  else k

/-- `RECIPIENT_REASONS` with its default. -/
def recipientReason (k : String) : String :=
  if k = "psp_provider" then "Missing or inconsistent PSP statement entry."
  else if k = "internal_backoffice" then "Missing or inconsistent internal backoffice record."
  else if k = "cashier_erp" then "Missing or inconsistent ERP/cashier record."
  else if k = "reconciliation_ops" then "General reconciliation mismatch requiring review."
  else "Reconciliation discrepancy found."

/-- Doubtful decisions of a month, in insertion order. -/
def doubtfulOfMonth (data : Data) (run month : String) : List StoredDecision :=
  (decisionsOf data run).filter (fun d =>
    d.final_status == .doubtful && monthKeyOf d == month)

/-- `doubtful_details` of a month. -/
def detailsOfMonth (data : Data) (run month : String) : List MonthlyDoubtfulDetail :=
  (doubtfulOfMonth data run month).map (fun d =>
    let missing := missingSourcesOf d
    { merchant_ref := d.merchant_ref
      state := excState (exceptionsOf data run) d.merchant_ref
      reason_codes := d.reason_codes
      missing_sources := missing
      recipients := derive_alert_recipients missing })

/-- Add one reference to a recipient bucket (`dict`-of-`set` update:
insertion-ordered keys and references, no duplicates). -/
def addRecipientRef (m : List (String × List String)) (r ref : String) :
    List (String × List String) :=
  match m with
  | [] => [(r, [ref])]
  | (k, refs) :: rest =>
      if k == r then (k, if refs.contains ref then refs else refs ++ [ref]) :: rest
      else (k, refs) :: addRecipientRef rest r ref

/-- `recipients_by_month[month]`: recipient → affected references. -/
def recipientsOfMonth (data : Data) (run month : String) : List (String × List String) :=
  (doubtfulOfMonth data run month).foldl
    (fun m d =>
      (derive_alert_recipients (missingSourcesOf d)).foldl
        (fun m' r => addRecipientRef m' r d.merchant_ref) m)
    []

/-- `alert_recipients` of a month: buckets sorted by affected count
descending (stable), references sorted. -/
def alertRecipientsOfMonth (data : Data) (run month : String) : List MonthlyAlertRecipient :=
  (sortBy (fun a b => decide (b.2.length ≤ a.2.length)) (recipientsOfMonth data run month)).map
    (fun kv =>
      { recipient_key := kv.1
        recipient_label := recipientLabel kv.1
        reason := recipientReason kv.1
        count := kv.2.length
        merchant_refs := sortBy strLe kv.2 })

/-- `state_by_month.get(month, {})` with all field defaults. -/
def monthStateOf (data : Data) (run month : String) : MonthState :=
  (alistFind ((alistFind data.monthly_submissions run).getD []) month).getD {}

/-- `schemas.MonthlySubmissionSummary`. -/
structure MonthlySubmissionSummary where
  run_id : String
  month : String
  total_transactions : ℕ
  good_transactions : ℕ
  doubtful_transactions : ℕ
  addressed_doubtful : ℕ
  unresolved_doubtful : ℕ
  ready_for_submission : Bool
  notified_to_source : Bool
  journal_created : Bool
  submitted_to_erp : Bool
  next_action : String
  notified_at : Option String
  journal_created_at : Option String
  submitted_at : Option String
  alert_recipients : List MonthlyAlertRecipient
  doubtful_details : List MonthlyDoubtfulDetail
deriving DecidableEq, Repr

/-- One month's summary as `_build_monthly_summaries_from_data` emits it. -/
def buildMonthlySummary (data : Data) (run month : String) : MonthlySubmissionSummary :=
  let total := statTotal data run month
  let good := statGood data run month
  let doubtful := statDoubtful data run month
  let unresolved := statUnresolved data run month
  let st := monthStateOf data run month
  let ready := decide (0 < total) && decide (unresolved = 0)
  let next :=
    if st.submitted_to_erp then "completed"
    else if ¬ ready then "address_doubtful"
    else if decide (0 < doubtful) && ¬ st.notified_to_source then "notify_sources"
    else if decide (0 < good) && ¬ st.journal_created then "create_journal"
    else "submit_to_erp"
  { run_id := run
    month := month
    total_transactions := total
    good_transactions := good
    doubtful_transactions := doubtful
    addressed_doubtful := statAddressed data run month
    unresolved_doubtful := unresolved
    ready_for_submission := ready
    notified_to_source := st.notified_to_source
    journal_created := st.journal_created
    submitted_to_erp := st.submitted_to_erp
    next_action := next
    notified_at := st.notified_at
    journal_created_at := st.journal_created_at
    submitted_at := st.submitted_at
    alert_recipients := alertRecipientsOfMonth data run month
    doubtful_details := detailsOfMonth data run month }

/-- `_build_monthly_summaries_from_data` / `list_monthly_submissions`. -/
def build_monthly_summaries (data : Data) (run : String) : List MonthlySubmissionSummary :=
  (monthsOf data run).map (buildMonthlySummary data run)

/-- `get_monthly_submission` (`none` models the `KeyError`). -/
def get_monthly_submission (data : Data) (run month : String) :
    Option MonthlySubmissionSummary :=
  (build_monthly_summaries data run).find? (fun s => s.month == month)

/-- Store-operation failures: `KeyError` or `ValueError`. -/
inductive StErr where
  | keyErr : String → StErr
  | valErr : String → StErr
deriving DecidableEq, Repr

/-- `_ensure_month_state` followed by a field update, persisted. -/
def setMonthState (data : Data) (run month : String) (f : MonthState → MonthState) : Data :=
  let sm := (alistFind data.monthly_submissions run).getD []
  let st := (alistFind sm month).getD {}
  { data with monthly_submissions :=
      alistInsert data.monthly_submissions run (alistInsert sm month (f st)) }

/-- `_audit`, modelled by its action tag. -/
def pushAudit (data : Data) (action : String) : Data :=
  { data with audit_events := data.audit_events ++ [action] }

/-- One exception's treatment by the bulk-verify pass of
`address_monthly_doubtful`: a targeted reference whose lowercased state is
not yet addressed moves to `verified`; anything else is untouched. -/
def verifyStep (targets : List String) (it : StoredException) : StoredException :=
  if targets.contains it.merchant_ref ∧ ¬ isAddressed (pyLower it.state) then
    { it with state := "verified" }
  else it

/-- The bulk-verify pass over a run's exception list. -/
def verifyExc (targets : List String) (items : List StoredException) : List StoredException :=
  items.map (verifyStep targets)

/-- `address_monthly_doubtful`: bulk-verify the month's not-yet-addressed
exceptions, stamp `doubtful_addressed_at`, and return the rebuilt summary.
`now` stands for `self.now().isoformat()`. -/
def address_monthly_doubtful (data : Data) (run month now : String) :
    Except StErr (Data × MonthlySubmissionSummary) :=
  if ¬ (decisionMonths data run).contains month ∧ ¬ (stateMonths data run).contains month then
    .error (.keyErr month)
  else
    let targets := refsOfMonth data run month
    let newExc := alistUpdate data.exceptions run (verifyExc targets)
    let data1 := { data with exceptions := newExc }
    let data2 := setMonthState data1 run month
      (fun st => { st with doubtful_addressed_at := some now })
    let data3 := pushAudit data2 "monthly_address_doubtful"
    match get_monthly_submission data3 run month with
    | some s => .ok (data3, s)
    | none => .error (.keyErr month)

/-- `submit_monthly_to_erp`: guarded by readiness and (when good
transactions exist) journal creation; no guard inspects
`submitted_to_erp`. -/
def submit_monthly_to_erp (data : Data) (run month now : String) :
    Except StErr (Data × MonthlySubmissionSummary) :=
  match get_monthly_submission data run month with
  | none => .error (.keyErr month)
  | some summary =>
      if ¬ summary.ready_for_submission then
        .error (.valErr "monthly submission is not ready; resolve doubtful transactions first")
      else
        let st := monthStateOf data run month
        if 0 < summary.good_transactions ∧ ¬ st.journal_created then
          .error (.valErr "create journal before submitting to ERP")
        else
          let data1 := setMonthState data run month
            (fun st' => { st' with submitted_to_erp := true, submitted_at := some now })
          let data2 := pushAudit data1 "monthly_submit_erp"
          match get_monthly_submission data2 run month with
          | some s => .ok (data2, s)
          | none => .error (.keyErr month)

/-! ## Daily ops aggregator -/

/-- `schemas.DailyNotificationTarget`. -/
structure DailyNotificationTarget where
  recipient_key : String
  recipient_label : String
  count : ℕ
  merchant_refs : List String
deriving DecidableEq, Repr

/-- `schemas.DailyOpsSummary`. -/
structure DailyOpsSummary where
  run_id : String
  run_status : String
  business_date : String
  total_transactions : ℕ
  good_transactions : ℕ
  doubtful_transactions : ℕ
  unresolved_doubtful : ℕ
  addressed_doubtful : ℕ
  notifications_required : ℕ
  notifications_sent : ℕ
  close_state : String
  next_action : String
  closed_at : Option String
  notification_targets : List DailyNotificationTarget
  monthly_items : List MonthlySubmissionSummary
deriving DecidableEq, Repr

/-- `data["daily_ops"].get(run_id, {})` with `_ensure_daily_state`
defaults. -/
def dailyStateOf (data : Data) (run : String) : DailyState :=
  (alistFind data.daily_ops run).getD {}

/-- `_run_business_date`: the stored business date (stripped) when truthy;
else the first 10 characters of the run's `created_at` when long enough;
else the sole real transaction month with `-01` appended; else
`"unknown"`. -/
def run_business_date (data : Data) (run : String) : String :=
  let bd := pyStrip ((dailyStateOf data run).business_date.getD "")
  if bd ≠ "" then bd
  else
    let created :=
      match alistFind data.runs run with
      | some r => r.created_at
      | none => ""
    if 10 ≤ created.toList.length then ⟨created.toList.take 10⟩
    else
      let real := (sortBy strLe ((decisionsOf data run).map monthKeyOf).dedup).filter
        (fun m => m ≠ "unknown")
      match real with
      | [m] => m ++ "-01"
      | _ => "unknown"

/-- Merge one month's references into a recipient bucket preserving
insertion order (`set.update`). -/
def unionRefs (a b : List String) : List String :=
  b.foldl (fun acc r => if acc.contains r then acc else acc ++ [r]) a

/-- Add one monthly alert target into the per-run recipient map (label
assignment is last-wins, reference sets union). -/
def addDailyTarget (m : List (String × String × List String))
    (key label : String) (refs : List String) : List (String × String × List String) :=
  match m with
  | [] => [(key, label, unionRefs [] refs)]
  | (k, l, rs) :: rest =>
      if k == key then (k, label, unionRefs rs refs) :: rest
      else (k, l, rs) :: addDailyTarget rest key label refs

/-- The run-level notification targets: fold every monthly item's alert
recipients, then sort by affected count descending (stable) with sorted
reference lists. -/
def dailyTargets (items : List MonthlySubmissionSummary) : List DailyNotificationTarget :=
  let m := items.foldl
    (fun m item => item.alert_recipients.foldl
      (fun m' t => addDailyTarget m' t.recipient_key t.recipient_label t.merchant_refs) m)
    []
  (sortBy (fun a b => decide (b.2.2.length ≤ a.2.2.length)) m).map
    (fun kv => { recipient_key := kv.1, recipient_label := kv.2.1,
                 count := kv.2.2.length, merchant_refs := sortBy strLe kv.2.2 })

/-- `_build_daily_ops_summary_from_data` for a run row already fetched. -/
def buildDailyOps (data : Data) (run : RunRec) : DailyOpsSummary :=
  let items := build_monthly_summaries data run.id
  let unresolved := (items.map (·.unresolved_doubtful)).sum
  let required := (items.filter (fun it => 0 < it.doubtful_transactions)).length
  let sent := (items.filter (fun it => 0 < it.doubtful_transactions ∧ it.notified_to_source)).length
  let st := dailyStateOf data run.id
  let closedTruthy := (st.closed_at.getD "") ≠ ""
  let (cs, na) : String × String :=
    if closedTruthy then ("closed", "closed")
    else if run.status ≠ "completed" then ("open", "wait_run_completion")
    else if 0 < unresolved then ("open", "address_doubtful")
    else if sent < required then ("open", "send_notifications")
    else ("ready_to_close", "close_day")
  { run_id := run.id
    run_status := run.status
    business_date := run_business_date data run.id
    total_transactions := (items.map (·.total_transactions)).sum
    good_transactions := (items.map (·.good_transactions)).sum
    doubtful_transactions := (items.map (·.doubtful_transactions)).sum
    unresolved_doubtful := unresolved
    addressed_doubtful := (items.map (·.addressed_doubtful)).sum
    notifications_required := required
    notifications_sent := sent
    close_state := cs
    next_action := na
    closed_at := st.closed_at
    notification_targets := dailyTargets items
    monthly_items := items }

/-- `get_daily_ops` (`KeyError` on an unknown run). -/
def get_daily_ops (data : Data) (run : String) : Except StErr DailyOpsSummary :=
  match alistFind data.runs run with
  | none => .error (.keyErr run)
  | some r => .ok (buildDailyOps data r)

/-- `set_daily_business_date`: `KeyError` on an unknown run; `ValueError`
with message `business_date must be YYYY-MM-DD` exactly when
`datetime.fromisoformat` rejects the string; otherwise the string is stored
verbatim in the daily state. -/
def set_daily_business_date (data : Data) (run business_date : String) :
    Except StErr (Data × DailyOpsSummary) :=
  if (alistFind data.runs run).isNone then .error (.keyErr run)
  else if (fromisoformat business_date).isNone then
    .error (.valErr "business_date must be YYYY-MM-DD")
  else
    let newDaily := alistInsert data.daily_ops run
      { dailyStateOf data run with business_date := some business_date }
    let data1 := { data with daily_ops := newDaily }
    let data2 := pushAudit data1 "daily_set_business_date"
    match get_daily_ops data2 run with
    | .ok s => .ok (data2, s)
    | .error err => .error err

/-! ## Monthly close aggregator (cross-run) -/

/-- `schemas.MonthlyCloseBatch`. -/
structure MonthlyCloseBatch where
  month : String
  source_run_ids : List String
  source_run_count : ℕ
  total_transactions : ℕ
  good_transactions : ℕ
  doubtful_transactions : ℕ
  ready_for_erp : Bool
  journal_created : Bool
  submitted_to_erp : Bool
  next_action : String
  journal_created_at : Option String
  submitted_at : Option String
deriving DecidableEq, Repr

/-- Runs sorted by creation timestamp ascending. -/
def runsSorted (data : Data) : List RunRec :=
  sortBy (fun a b => strLe a.created_at b.created_at) (data.runs.map (·.2))

/-- The runs whose daily close state is `closed` (only they contribute to
monthly close batches). -/
def closedRuns (data : Data) : List RunRec :=
  (runsSorted data).filter (fun r => (buildDailyOps data r).close_state == "closed")

/-- `data["monthly_close"].get(month, {})`. -/
def closeStateOf (data : Data) (month : String) : CloseState :=
  (alistFind data.monthly_close month).getD {}

/-- The batch months: aggregated months of closed runs united with the keys
of the close-state store, sorted. -/
def batchMonths (data : Data) : List String :=
  sortBy strLe
    (((closedRuns data).flatMap (fun r => monthsOf data r.id) ++
      data.monthly_close.map (·.1)).dedup)

/-- The closed runs contributing a given month. -/
def contributingRuns (data : Data) (month : String) : List RunRec :=
  (closedRuns data).filter (fun r => (monthsOf data r.id).contains month)

/-- One month's cross-run batch as `_build_monthly_close_batches_from_data`
emits it (extensional reading of the aggregation fold: each closed run's
month item adds its counters and its run id to its own month's bucket). -/
def buildCloseBatch (data : Data) (month : String) : MonthlyCloseBatch :=
  let contrib := contributingRuns data month
  let ids := sortBy strLe ((contrib.map (·.id)).dedup)
  let unresolved := (contrib.map (fun r => statUnresolved data r.id month)).sum
  let ready := decide (0 < ids.length) && decide (unresolved = 0)
  let st := closeStateOf data month
  let next :=
    if st.submitted_to_erp then "completed"
    else if ¬ ready then "wait_for_daily_close"
    else if ¬ st.journal_created then "create_journal"
    else "submit_to_erp"
  { month := month
    source_run_ids := ids
    source_run_count := ids.length
    total_transactions := (contrib.map (fun r => statTotal data r.id month)).sum
    good_transactions := (contrib.map (fun r => statGood data r.id month)).sum
    doubtful_transactions := (contrib.map (fun r => statDoubtful data r.id month)).sum
    ready_for_erp := ready
    journal_created := st.journal_created
    submitted_to_erp := st.submitted_to_erp
    next_action := next
    journal_created_at := st.journal_created_at
    submitted_at := st.submitted_at }

/-- `list_monthly_close_batches`. -/
def build_monthly_close_batches (data : Data) : List MonthlyCloseBatch :=
  (batchMonths data).map (buildCloseBatch data)

/-- `get_monthly_close_batch` (`none` models the `KeyError`). -/
def get_monthly_close_batch (data : Data) (month : String) : Option MonthlyCloseBatch :=
  (build_monthly_close_batches data).find? (fun b => b.month == month)

/-- Modelled from the spec: `Storage.revert_monthly_close_submission` is
absent from the provided `storage.py` (only its HTTP endpoint in `main.py`
and its test exist).  Per the spec's monthly-close section, revert
(submit→journal stage) clears both the `submitted_to_erp` and
`journal_created` flags and their timestamps and returns the rebuilt batch;
an unknown month is a `KeyError`, mirroring the endpoint's 404 mapping. -/
def revert_monthly_close_submission (data : Data) (month : String) :
    Except StErr (Data × MonthlyCloseBatch) :=
  match get_monthly_close_batch data month with
  | none => .error (.keyErr month)
  | some _ =>
      let cleared : CloseState :=
        { journal_created := false, submitted_to_erp := false,
          journal_created_at := none, submitted_at := none }
      let data1 := { data with monthly_close := alistInsert data.monthly_close month cleared }
      let data2 := pushAudit data1 "monthly_close_revert"
      match get_monthly_close_batch data2 month with
      | some b => .ok (data2, b)
      | none => .error (.keyErr month)

/-! ## Store lemmas -/

/-- Looking up the key just inserted yields the inserted value. -/
theorem alistFind_insert_self (l : List (String × α)) (k : String) (v : α) :
    alistFind (alistInsert l k v) k = some v := by
  induction l with
  | nil => simp [alistInsert, alistFind]
  | cons kv rest ih =>
      obtain ⟨k', v'⟩ := kv
      by_cases h : (k' == k) = true
      · simp [alistInsert, h, alistFind]
      · simp only [alistInsert, h, if_false, Bool.false_eq_true]
        simp only [alistFind, List.find?] at ih ⊢
        simp [h, ih]

/-- The key set after an insert carries the inserted key. -/
theorem keys_insert_contains (l : List (String × α)) (k : String) (v : α) :
    k ∈ (alistInsert l k v).map (·.1) := by
  induction l with
  | nil => simp [alistInsert]
  | cons kv rest ih =>
      obtain ⟨k', v'⟩ := kv
      by_cases h : (k' == k) = true
      · simp [alistInsert, h]
      · simp only [alistInsert, h, if_false, Bool.false_eq_true, List.map_cons, List.mem_cons]
        exact Or.inr ih

/-- Membership through sorted insertion. -/
theorem mem_insSorted (le : α → α → Bool) (x a : α) (l : List α) :
    a ∈ insSorted le x l ↔ a = x ∨ a ∈ l := by
  induction l with
  | nil => simp [insSorted]
  | cons y ys ih =>
      by_cases h : (le x y) = true
      · simp [insSorted, h]
      · simp [insSorted, h, ih]
        tauto

/-- Sorting preserves membership. -/
theorem mem_sortBy (le : α → α → Bool) (a : α) (l : List α) :
    a ∈ sortBy le l ↔ a ∈ l := by
  induction l with
  | nil => simp [sortBy]
  | cons x xs ih => simp [sortBy, mem_insSorted, ih]

/-- Scanning a keyed build list finds the build of the sought key. -/
theorem find?_map_key {β : Type} (f : String → β) (key : β → String)
    (hf : ∀ m, key (f m) = m) (l : List String) (month : String) (h : month ∈ l) :
    (l.map f).find? (fun b => key b == month) = some (f month) := by
  induction l with
  | nil => cases h
  | cons m rest ih =>
      by_cases hm : (m == month) = true
      · have : m = month := by simpa using hm
        subst this
        simp [List.find?, hf]
      · simp only [List.map_cons, List.find?, hf, hm]
        rcases List.mem_cons.mp h with h' | h'
        · exact absurd (by simp [h']) hm
        · exact ih h'

/-- `get_monthly_submission` returns the month's build whenever the month is
listed. -/
theorem get_monthly_submission_of_mem (data : Data) (run month : String)
    (h : month ∈ monthsOf data run) :
    get_monthly_submission data run month = some (buildMonthlySummary data run month) := by
  unfold get_monthly_submission build_monthly_summaries
  exact find?_map_key _ (fun s : MonthlySubmissionSummary => s.month) (fun m => rfl) _ month h

/-- `get_monthly_close_batch` returns the month's build whenever the month
is listed. -/
theorem get_monthly_close_batch_of_mem (data : Data) (month : String)
    (h : month ∈ batchMonths data) :
    get_monthly_close_batch data month = some (buildCloseBatch data month) := by
  unfold get_monthly_close_batch build_monthly_close_batches
  exact find?_map_key _ (fun b : MonthlyCloseBatch => b.month) (fun m => rfl) _ month h

/-! ## Concrete store states used by witnesses and counterexamples -/

/-- A completed run row. -/
def runR1 : RunRec :=
  { id := "r1", status := "completed", stage := "completed",
    created_at := "2026-03-01T00:00:00+00:00" }

/-- A good decision in month `2024-01`. -/
def decGoodJan : StoredDecision :=
  { merchant_ref := "MONTH-001", final_status := .good, reason_codes := [],
    transaction_month := some "2024-01" }

/-- A doubtful decision in month `2024-01` with the psp row missing. -/
def decBadJan : StoredDecision :=
  { merchant_ref := "MONTH-002", final_status := .doubtful,
    reason_codes := ["MISSING_IN_ONE_OR_MORE_SOURCES"],
    transaction_month := some "2024-01",
    sources_present := [("internal", true), ("erp", true), ("psp", false)] }

/-- The open exception case of `decBadJan`. -/
def excOpenJan : StoredException :=
  { id := "exc-001", merchant_ref := "MONTH-002", severity := "medium",
    reason_codes := ["MISSING_IN_ONE_OR_MORE_SOURCES"], state := "open" }

/-- A store with one run holding one good and one doubtful `2024-01`
decision and the latter's open exception. -/
def storeJan : Data :=
  { runs := [("r1", runR1)],
    decisions := [("r1", [decGoodJan, decBadJan])],
    exceptions := [("r1", [excOpenJan])] }

/-! ## Claims about the workflow state machine -/

/-- Pointwise bridge between `==` and `decide` on strings. -/
theorem beqToDecide (s t : String) : (s == t) = decide (s = t) := by
  by_cases h : s = t
  · subst h; simp
  · simp [h]

/-- The claim's reading of the unresolved-doubtful count: decisions of the
month that are doubtful and whose exception state (that of the last
exception row with the same reference, defaulting to open) is not
verified/approved/resolved.  Stated independently of the summary builder
and compared with it in C4. -/
def specUnresolvedDoubtful (data : Data) (run month : String) : ℕ :=
  ((decisionsOf data run).filter (fun d =>
    monthKeyOf d == month && d.final_status == .doubtful &&
      !(decide (excState (exceptionsOf data run) d.merchant_ref = "verified" ∨
         excState (exceptionsOf data run) d.merchant_ref = "approved" ∨
         excState (exceptionsOf data run) d.merchant_ref = "resolved")))).length

/-- `isAddressed` agrees with the claim's three-state membership test. -/
theorem isAddressed_eq (s : String) :
    isAddressed s = decide (s = "verified" ∨ s = "approved" ∨ s = "resolved") := by
  simp only [isAddressed, beqToDecide, Bool.or_assoc]
  by_cases h1 : s = "verified" <;> by_cases h2 : s = "approved" <;>
    by_cases h3 : s = "resolved" <;> simp [h1, h2, h3]

/-- **C4**: in every store state (hence in every reachable one, whatever
the order of prior `address_doubtful`/`notify`/`create_journal`/
`submit_to_erp` calls — none of which quantification excludes), every
monthly summary has `ready_for_submission` true iff it counts at least one
transaction and zero unresolved doubtful ones, where the unresolved count
is exactly the claim's: doubtful decisions whose exception state is outside
{verified, approved, resolved}. -/
theorem C4_ready_iff_total_pos_and_unresolved_zero (data : Data) (run : String)
    (s : MonthlySubmissionSummary) (h : s ∈ build_monthly_summaries data run) :
    (s.ready_for_submission = true ↔ 0 < s.total_transactions ∧ s.unresolved_doubtful = 0) ∧
    s.total_transactions = (monthDecisions data run s.month).length ∧
    s.unresolved_doubtful = specUnresolvedDoubtful data run s.month := by
  unfold build_monthly_summaries at h
  obtain ⟨m, hm, rfl⟩ := List.mem_map.mp h
  refine ⟨?_, rfl, ?_⟩
  · show (decide (0 < statTotal data run m) && decide (statUnresolved data run m = 0)) = true ↔ _
    simp [buildMonthlySummary, statTotal, statUnresolved]
  · show statUnresolved data run m = specUnresolvedDoubtful data run m
    unfold statUnresolved specUnresolvedDoubtful monthDecisions
    rw [List.filter_filter]
    congr 1
    apply List.filter_congr
    intro d _
    cases hb : (monthKeyOf d == m) <;> cases hc : (d.final_status == FinalStatus.doubtful) <;>
      simp [hb, hc, isAddressed_eq]

/-- Witness for C4 at `storeJan`'s `2024-01` summary. -/
theorem C4_ready_iff_total_pos_and_unresolved_zero_witness :
    (buildMonthlySummary storeJan "r1" "2024-01" ∈ build_monthly_summaries storeJan "r1") ∧
    (((buildMonthlySummary storeJan "r1" "2024-01").ready_for_submission = true ↔
        0 < (buildMonthlySummary storeJan "r1" "2024-01").total_transactions ∧
          (buildMonthlySummary storeJan "r1" "2024-01").unresolved_doubtful = 0) ∧
      (buildMonthlySummary storeJan "r1" "2024-01").total_transactions =
        (monthDecisions storeJan "r1" (buildMonthlySummary storeJan "r1" "2024-01").month).length ∧
      (buildMonthlySummary storeJan "r1" "2024-01").unresolved_doubtful =
        specUnresolvedDoubtful storeJan "r1" (buildMonthlySummary storeJan "r1" "2024-01").month) :=
  ⟨by decide, C4_ready_iff_total_pos_and_unresolved_zero storeJan "r1" _ (by decide)⟩


/-- `get_daily_ops` succeeds on a run present in the store. -/
theorem get_daily_ops_ok {D : Data} {run : String} {r : RunRec}
    (hr : alistFind D.runs run = some r) :
    get_daily_ops D run = .ok (buildDailyOps D r) := by
  unfold get_daily_ops
  rw [hr]

/-- The store produced by a successful `set_daily_business_date`. -/
def bdUpdated (data : Data) (run s : String) : Data :=
  pushAudit
    { data with
      daily_ops := alistInsert data.daily_ops run
        { dailyStateOf data run with business_date := some s } }
    "daily_set_business_date"

/-- **C10**: `set_daily_business_date` on an existing run raises the
validation error `business_date must be YYYY-MM-DD` exactly when
`datetime.fromisoformat` rejects the string; every string it accepts —
including full datetimes with a time component — is stored verbatim as the
business date, despite the message's promise of a plain `YYYY-MM-DD`
date. -/
theorem C10_business_date_validation (data : Data) (run s : String)
    (h : (alistFind data.runs run).isSome = true) :
    ((fromisoformat s).isNone = true →
      set_daily_business_date data run s =
        .error (.valErr "business_date must be YYYY-MM-DD")) ∧
    ((fromisoformat s).isNone = false →
      ∃ d sum, set_daily_business_date data run s = .ok (d, sum) ∧
        (dailyStateOf d run).business_date = some s) := by
  obtain ⟨r, hr⟩ := Option.isSome_iff_exists.mp h
  constructor
  · intro hbad
    unfold set_daily_business_date
    simp [hr, hbad]
  · intro hgood
    unfold set_daily_business_date
    rw [hr]
    simp only [Option.isNone_some, Bool.false_eq_true, if_false, hgood]
    have hr2 : alistFind (bdUpdated data run s).runs run = some r := hr
    show ∃ d sum,
      (match get_daily_ops (bdUpdated data run s) run with
        | Except.ok s1 => Except.ok (bdUpdated data run s, s1)
        | Except.error err => Except.error err) = Except.ok (d, sum) ∧
      (dailyStateOf d run).business_date = some s
    rw [get_daily_ops_ok hr2]
    refine ⟨bdUpdated data run s, _, rfl, ?_⟩
    have h3 : alistFind (bdUpdated data run s).daily_ops run =
        some { dailyStateOf data run with business_date := some s } :=
      alistFind_insert_self data.daily_ops run _
    unfold dailyStateOf
    rw [h3]
    rfl

/-- Witness for C10: the run exists and the datetime string
`2026-03-01T12:00:00` (with a time component) is accepted and stored
verbatim. -/
theorem C10_business_date_validation_witness :
    ((alistFind storeJan.runs "r1").isSome = true) ∧
    (fromisoformat "2026-03-01T12:00:00").isNone = false ∧
    (((fromisoformat "2026-03-01T12:00:00").isNone = true →
      set_daily_business_date storeJan "r1" "2026-03-01T12:00:00" =
        .error (.valErr "business_date must be YYYY-MM-DD")) ∧
    ((fromisoformat "2026-03-01T12:00:00").isNone = false →
      ∃ d sum, set_daily_business_date storeJan "r1" "2026-03-01T12:00:00" = .ok (d, sum) ∧
        (dailyStateOf d "r1").business_date = some "2026-03-01T12:00:00")) :=
  ⟨by decide, by decide,
    C10_business_date_validation storeJan "r1" "2026-03-01T12:00:00" (by decide)⟩

/-- Reading back the month state just written by `setMonthState`. -/
theorem monthStateOf_setMonthState (data : Data) (run month : String) (f : MonthState → MonthState) :
    monthStateOf (setMonthState data run month f) run month = f (monthStateOf data run month) := by
  show (alistFind ((alistFind (alistInsert data.monthly_submissions run
      (alistInsert ((alistFind data.monthly_submissions run).getD [])
        month (f ((alistFind ((alistFind data.monthly_submissions run).getD []) month).getD {})))) run).getD []) month).getD {} =
    f (monthStateOf data run month)
  rw [alistFind_insert_self]
  show (alistFind (alistInsert ((alistFind data.monthly_submissions run).getD [])
      month (f ((alistFind ((alistFind data.monthly_submissions run).getD []) month).getD {}))) month).getD {} = _
  rw [alistFind_insert_self]
  rfl

/-- After `setMonthState` the month is a key of the per-run state store. -/
theorem mem_stateMonths_setMonthState (data : Data) (run month : String) (f : MonthState → MonthState) :
    month ∈ stateMonths (setMonthState data run month f) run := by
  show month ∈ ((alistFind (alistInsert data.monthly_submissions run
      (alistInsert ((alistFind data.monthly_submissions run).getD [])
        month (f ((alistFind ((alistFind data.monthly_submissions run).getD []) month).getD {})))) run).getD []).map (·.1)
  rw [alistFind_insert_self]
  exact keys_insert_contains _ _ _

/-- A state-store month is always listed among the summary months. -/
theorem mem_monthsOf_of_stateMonths (data : Data) (run month : String)
    (h : month ∈ stateMonths data run) : month ∈ monthsOf data run := by
  unfold monthsOf
  rw [mem_sortBy]
  exact List.mem_dedup.mpr (List.mem_append_right _ h)

/-- The store produced by a successful `submit_monthly_to_erp`. -/
def erpUpdated (data : Data) (run month now : String) : Data :=
  pushAudit
    (setMonthState data run month
      (fun st' => { st' with submitted_to_erp := true, submitted_at := some now }))
    "monthly_submit_erp"

/-- A store whose `2024-01` month has already been journaled and submitted
to ERP (one good decision, no doubtful ones). -/
def storeSubmitted : Data :=
  { runs := [("r1", runR1)],
    decisions := [("r1", [decGoodJan])],
    monthly_submissions := [("r1", [("2024-01",
      { notified_to_source := false, journal_created := true, submitted_to_erp := true,
        journal_created_at := some "T0", submitted_at := some "T0" })])] }

/-- **C7** (counterexample): with `submitted_to_erp` already true, a
further `submit_monthly_to_erp` call is *not* rejected — it succeeds and
overwrites the persisted `submitted_at` timestamp, contradicting the
claim's validation error and unchanged state. -/
theorem C7_resubmission_counterexample :
    (monthStateOf storeSubmitted "r1" "2024-01").submitted_to_erp = true ∧
    (submit_monthly_to_erp storeSubmitted "r1" "2024-01" "T1").toOption.isSome = true ∧
    ((submit_monthly_to_erp storeSubmitted "r1" "2024-01" "T1").toOption.map
      (fun x => (monthStateOf x.1 "r1" "2024-01").submitted_at)) = some (some "T1") := by
  refine ⟨by decide, by decide, by decide⟩

/-- **C7** (amended): re-submitting an already-submitted month at the
monthly-submission scope is **accepted**, not rejected — no guard inspects
`submitted_to_erp`.  Whenever the summary is still ready for submission and
the journal guard holds (both held when the first submission succeeded),
the call returns ok, keeps `submitted_to_erp` true and overwrites
`submitted_at` with the new timestamp. -/
theorem C7_resubmission_accepted (data : Data) (run month now : String)
    (s : MonthlySubmissionSummary)
    (h : get_monthly_submission data run month = some s)
    (_hsub : (monthStateOf data run month).submitted_to_erp = true)
    (hready : s.ready_for_submission = true)
    (hj : 0 < s.good_transactions → (monthStateOf data run month).journal_created = true) :
    ∃ d s', submit_monthly_to_erp data run month now = .ok (d, s') ∧
      (monthStateOf d run month).submitted_to_erp = true ∧
      (monthStateOf d run month).submitted_at = some now := by
  unfold submit_monthly_to_erp
  rw [h]
  simp only [hready, not_true, if_false, Bool.not_true]
  have hguard : ¬ (0 < s.good_transactions ∧ ¬ (monthStateOf data run month).journal_created = true) := by
    rintro ⟨hpos, hnj⟩
    exact hnj (hj hpos)
  rw [if_neg hguard]
  have hmem : month ∈ monthsOf (erpUpdated data run month now) run :=
    mem_monthsOf_of_stateMonths (erpUpdated data run month now) run month
      (mem_stateMonths_setMonthState data run month
        (fun st' => { st' with submitted_to_erp := true, submitted_at := some now }))
  show ∃ d s', (match get_monthly_submission (erpUpdated data run month now) run month with
      | some s2 => Except.ok (erpUpdated data run month now, s2)
      | none => Except.error (StErr.keyErr month)) = Except.ok (d, s') ∧
      (monthStateOf d run month).submitted_to_erp = true ∧
      (monthStateOf d run month).submitted_at = some now
  rw [get_monthly_submission_of_mem _ _ _ hmem]
  have hst : monthStateOf (erpUpdated data run month now) run month =
      { monthStateOf data run month with submitted_to_erp := true, submitted_at := some now } :=
    monthStateOf_setMonthState data run month
      (fun st' => { st' with submitted_to_erp := true, submitted_at := some now })
  exact ⟨erpUpdated data run month now, _, rfl, by rw [hst], by rw [hst]⟩

/-- Witness for the amended C7 at `storeSubmitted`. -/
theorem C7_resubmission_accepted_witness :
    (get_monthly_submission storeSubmitted "r1" "2024-01" =
      some (buildMonthlySummary storeSubmitted "r1" "2024-01")) ∧
    ((monthStateOf storeSubmitted "r1" "2024-01").submitted_to_erp = true) ∧
    ((buildMonthlySummary storeSubmitted "r1" "2024-01").ready_for_submission = true) ∧
    (∃ d s', submit_monthly_to_erp storeSubmitted "r1" "2024-01" "T1" = .ok (d, s') ∧
      (monthStateOf d "r1" "2024-01").submitted_to_erp = true ∧
      (monthStateOf d "r1" "2024-01").submitted_at = some "T1") :=
  ⟨by decide, by decide, by decide,
    C7_resubmission_accepted storeSubmitted "r1" "2024-01" "T1"
      (buildMonthlySummary storeSubmitted "r1" "2024-01")
      (by decide) (by decide) (by decide) (fun _ => by decide)⟩

/-- A close-state month is always listed among the batch months. -/
theorem mem_batchMonths_of_close_keys (data : Data) (month : String)
    (h : month ∈ data.monthly_close.map (·.1)) : month ∈ batchMonths data := by
  unfold batchMonths
  rw [mem_sortBy]
  exact List.mem_dedup.mpr (List.mem_append_right _ h)

/-- The close state with both flags and both timestamps cleared. -/
def clearedCloseState : CloseState :=
  { journal_created := false, submitted_to_erp := false,
    journal_created_at := none, submitted_at := none }

/-- The store produced by a successful `revert_monthly_close_submission`. -/
def revUpdated (data : Data) (month : String) : Data :=
  pushAudit { data with monthly_close := alistInsert data.monthly_close month clearedCloseState }
    "monthly_close_revert"

/-- **C1** (amended): reverting a submitted monthly-close batch clears both
`submitted_to_erp` and `journal_created` and both timestamps; the rebuilt
batch's `next_action` is `create_journal` when the batch is still ready for
ERP, and `wait_for_daily_close` otherwise (the ready check precedes the
journal check in the next-action precedence). -/
theorem C1_revert_clears_submission (data : Data) (month : String) (b : MonthlyCloseBatch)
    (h : get_monthly_close_batch data month = some b)
    (_hsub : b.submitted_to_erp = true) :
    ∃ d b', revert_monthly_close_submission data month = .ok (d, b') ∧
      b'.submitted_to_erp = false ∧ b'.journal_created = false ∧
      b'.journal_created_at = none ∧ b'.submitted_at = none ∧
      b'.next_action = (if b'.ready_for_erp then "create_journal" else "wait_for_daily_close") := by
  unfold revert_monthly_close_submission
  rw [h]
  have hmem : month ∈ batchMonths (revUpdated data month) :=
    mem_batchMonths_of_close_keys _ _ (keys_insert_contains data.monthly_close month clearedCloseState)
  show ∃ d b', (match get_monthly_close_batch (revUpdated data month) month with
      | some b2 => Except.ok (revUpdated data month, b2)
      | none => Except.error (StErr.keyErr month)) = Except.ok (d, b') ∧
      b'.submitted_to_erp = false ∧ b'.journal_created = false ∧
      b'.journal_created_at = none ∧ b'.submitted_at = none ∧
      b'.next_action = (if b'.ready_for_erp then "create_journal" else "wait_for_daily_close")
  rw [get_monthly_close_batch_of_mem _ _ hmem]
  have hcs : closeStateOf (revUpdated data month) month = clearedCloseState := by
    show (alistFind (alistInsert data.monthly_close month clearedCloseState) month).getD {} = _
    rw [alistFind_insert_self]
    rfl
  refine ⟨revUpdated data month, _, rfl, ?_, ?_, ?_, ?_, ?_⟩
  all_goals
    simp only [buildCloseBatch, hcs, clearedCloseState]
    try (cases hready : (decide (0 < (sortBy strLe ((contributingRuns (revUpdated data month) month).map (·.id)).dedup).length) &&
      decide ((List.map (fun r => statUnresolved (revUpdated data month) r.id month) (contributingRuns (revUpdated data month) month)).sum = 0)) <;>
      simp [hready])

/-- A good `2026-03` decision. -/
def decGoodMar : StoredDecision :=
  { merchant_ref := "REF-001", final_status := .good, reason_codes := [],
    transaction_month := some "2026-03" }

/-- A doubtful `2026-03` decision with the internal row missing. -/
def decBadMar : StoredDecision :=
  { merchant_ref := "REF-002", final_status := .doubtful,
    reason_codes := ["MISSING_IN_ONE_OR_MORE_SOURCES"],
    transaction_month := some "2026-03",
    sources_present := [("internal", false), ("erp", true), ("psp", true)] }

/-- The verified exception case of `decBadMar`. -/
def excVerifiedMar : StoredException :=
  { id := "exc-1", merchant_ref := "REF-002", severity := "medium",
    reason_codes := ["MISSING_IN_ONE_OR_MORE_SOURCES"], state := "verified" }

/-- The same exception case still open. -/
def excOpenMar : StoredException :=
  { id := "exc-1", merchant_ref := "REF-002", severity := "medium",
    reason_codes := ["MISSING_IN_ONE_OR_MORE_SOURCES"], state := "open" }

/-- Month state of `2026-03` after notification. -/
def notifiedMarState : MonthState :=
  { notified_to_source := true, notified_at := some "T0" }

/-- Daily state of the closed run. -/
def closedDailyState : DailyState :=
  { closed_at := some "T0", business_date := some "2026-03-01" }

/-- Close state of `2026-03` after journal and ERP submission. -/
def submittedCloseState : CloseState :=
  { journal_created := true, submitted_to_erp := true,
    journal_created_at := some "T0", submitted_at := some "T0" }

/-- A store with one closed, completed run over `2026-03` whose doubtful
exception is verified, its month notified, and the cross-run close batch
journaled and submitted: the happy post-submission state. -/
def storeClosedReady : Data :=
  { runs := [("r1", runR1)],
    decisions := [("r1", [decGoodMar, decBadMar])],
    exceptions := [("r1", [excVerifiedMar])],
    monthly_submissions := [("r1", [("2026-03", notifiedMarState)])],
    daily_ops := [("r1", closedDailyState)],
    monthly_close := [("2026-03", submittedCloseState)] }

/-- `storeClosedReady` with the exception re-opened after submission, so the
batch is no longer ready for ERP although `submitted_to_erp` is true. -/
def storeClosedUnready : Data :=
  { storeClosedReady with exceptions := [("r1", [excOpenMar])] }

/-- **C1** (counterexample): in a store whose `2026-03` batch has
`submitted_to_erp = true` but an unresolved doubtful transaction (its
exception was re-opened after submission), reverting clears both flags but
the batch's `next_action` becomes `wait_for_daily_close`, not the claimed
`create_journal`. -/
theorem C1_revert_counterexample :
    (get_monthly_close_batch storeClosedUnready "2026-03").map (fun b => b.submitted_to_erp) =
      some true ∧
    ((revert_monthly_close_submission storeClosedUnready "2026-03").toOption.map
      (fun x => (x.2.submitted_to_erp, x.2.journal_created, x.2.next_action))) =
      some (false, false, "wait_for_daily_close") ∧
    "wait_for_daily_close" ≠ "create_journal" :=
  ⟨by decide, by decide, by decide⟩

/-- Witness for the amended C1 at `storeClosedReady`, where the revert lands
back on `create_journal`. -/
theorem C1_revert_clears_submission_witness :
    (get_monthly_close_batch storeClosedReady "2026-03" =
      some (buildCloseBatch storeClosedReady "2026-03")) ∧
    ((buildCloseBatch storeClosedReady "2026-03").submitted_to_erp = true) ∧
    ((revert_monthly_close_submission storeClosedReady "2026-03").toOption.map
      (fun x => x.2.next_action) = some "create_journal") ∧
    (∃ d b', revert_monthly_close_submission storeClosedReady "2026-03" = .ok (d, b') ∧
      b'.submitted_to_erp = false ∧ b'.journal_created = false ∧
      b'.journal_created_at = none ∧ b'.submitted_at = none ∧
      b'.next_action = (if b'.ready_for_erp then "create_journal" else "wait_for_daily_close")) :=
  ⟨by decide, by decide, by decide,
    C1_revert_clears_submission storeClosedReady "2026-03"
      (buildCloseBatch storeClosedReady "2026-03") (by decide) (by decide)⟩

/-- The bulk-verify step is idempotent on a single exception: a freshly
verified case is addressed, so a second pass leaves it alone. -/
theorem verifyStep_idem (targets : List String) (it : StoredException) :
    verifyStep targets (verifyStep targets it) = verifyStep targets it := by
  unfold verifyStep
  by_cases hc : targets.contains it.merchant_ref = true ∧ ¬ isAddressed (pyLower it.state) = true
  · rw [if_pos hc]
    have hv : isAddressed (pyLower ("verified" : String)) = true := by decide
    rw [if_neg]
    rintro ⟨_, hna⟩
    exact hna hv
  · rw [if_neg hc, if_neg hc]

/-- The bulk-verify pass is idempotent on an exception list. -/
theorem verifyExc_idem (targets : List String) (items : List StoredException) :
    verifyExc targets (verifyExc targets items) = verifyExc targets items := by
  unfold verifyExc
  rw [List.map_map]
  apply List.map_congr_left
  intro it _
  exact verifyStep_idem targets it

/-- Two in-place updates at the same key compose. -/
theorem alistUpdate_alistUpdate (l : List (String × α)) (k : String) (f g : α → α) :
    alistUpdate (alistUpdate l k f) k g = alistUpdate l k (fun v => g (f v)) := by
  unfold alistUpdate
  rw [List.map_map]
  apply List.map_congr_left
  intro kv _
  by_cases h : (kv.1 == k) = true
  · simp [Function.comp, h]
  · simp [Function.comp, h]

/-- The monthly summary only reads the run's decisions and exceptions and
the six exposed month-state fields — in particular it never reads
`doubtful_addressed_at` or the audit ledger. -/
theorem buildMonthlySummary_congr (da db : Data) (run month : String)
    (hdec : decisionsOf da run = decisionsOf db run)
    (hexc : exceptionsOf da run = exceptionsOf db run)
    (h1 : (monthStateOf da run month).notified_to_source = (monthStateOf db run month).notified_to_source)
    (h2 : (monthStateOf da run month).journal_created = (monthStateOf db run month).journal_created)
    (h3 : (monthStateOf da run month).submitted_to_erp = (monthStateOf db run month).submitted_to_erp)
    (h4 : (monthStateOf da run month).notified_at = (monthStateOf db run month).notified_at)
    (h5 : (monthStateOf da run month).journal_created_at = (monthStateOf db run month).journal_created_at)
    (h6 : (monthStateOf da run month).submitted_at = (monthStateOf db run month).submitted_at) :
    buildMonthlySummary da run month = buildMonthlySummary db run month := by
  simp only [buildMonthlySummary, statTotal, statGood, statDoubtful, statAddressed,
    statUnresolved, monthDecisions, detailsOfMonth, doubtfulOfMonth, alertRecipientsOfMonth,
    recipientsOfMonth, refsOfMonth, hdec, hexc, h1, h2, h3, h4, h5, h6]

/-- The store produced by a successful `address_monthly_doubtful`. -/
def addrUpdated (data : Data) (run month now : String) : Data :=
  pushAudit
    (setMonthState
      { data with exceptions := alistUpdate data.exceptions run (verifyExc (refsOfMonth data run month)) }
      run month (fun st => { st with doubtful_addressed_at := some now }))
    "monthly_address_doubtful"

/-- **C8**: `address_monthly_doubtful` is idempotent — after a successful
call, calling it again on the same month succeeds, returns a summary
identical to the first call's, and changes no exception (cases already in
verified/approved/resolved are untouched, so nothing is double-counted);
only the unexposed `doubtful_addressed_at` stamp and the audit ledger
move. -/
theorem C8_address_doubtful_idempotent (data : Data) (run month now1 now2 : String)
    (d1 : Data) (s1 : MonthlySubmissionSummary)
    (h : address_monthly_doubtful data run month now1 = .ok (d1, s1)) :
    ∃ d2, address_monthly_doubtful d1 run month now2 = .ok (d2, s1) ∧
      d2.exceptions = d1.exceptions := by
  by_cases hg : (¬ (decisionMonths data run).contains month = true ∧
      ¬ (stateMonths data run).contains month = true)
  · unfold address_monthly_doubtful at h
    rw [if_pos hg] at h
    exact absurd h (by simp)
  · unfold address_monthly_doubtful at h
    rw [if_neg hg] at h
    have h' : (match get_monthly_submission (addrUpdated data run month now1) run month with
        | some s => Except.ok (addrUpdated data run month now1, s)
        | none => Except.error (StErr.keyErr month)) = Except.ok (d1, s1) := h
    have hmem1 : month ∈ monthsOf (addrUpdated data run month now1) run :=
      mem_monthsOf_of_stateMonths _ _ _
        (mem_stateMonths_setMonthState
          { data with exceptions := alistUpdate data.exceptions run (verifyExc (refsOfMonth data run month)) }
          run month (fun st => { st with doubtful_addressed_at := some now1 }))
    rw [get_monthly_submission_of_mem _ _ _ hmem1] at h'
    injection h' with h'
    rw [Prod.ext_iff] at h'
    obtain ⟨hd1, hs1⟩ := h'
    subst hd1
    subst hs1
    have hBmem : month ∈ stateMonths (addrUpdated data run month now1) run :=
      mem_stateMonths_setMonthState
        { data with exceptions := alistUpdate data.exceptions run (verifyExc (refsOfMonth data run month)) }
        run month (fun st => { st with doubtful_addressed_at := some now1 })
    have hB : (stateMonths (addrUpdated data run month now1) run).contains month = true :=
      List.elem_iff.mpr hBmem
    have htgt : refsOfMonth (addrUpdated data run month now1) run month =
        refsOfMonth data run month := rfl
    have hEx : (addrUpdated (addrUpdated data run month now1) run month now2).exceptions =
        (addrUpdated data run month now1).exceptions := by
      show alistUpdate ((addrUpdated data run month now1).exceptions) run
          (verifyExc (refsOfMonth (addrUpdated data run month now1) run month)) =
        (addrUpdated data run month now1).exceptions
      rw [htgt]
      show alistUpdate (alistUpdate data.exceptions run (verifyExc (refsOfMonth data run month))) run
          (verifyExc (refsOfMonth data run month)) =
        alistUpdate data.exceptions run (verifyExc (refsOfMonth data run month))
      rw [alistUpdate_alistUpdate]
      rw [show (fun v => verifyExc (refsOfMonth data run month) (verifyExc (refsOfMonth data run month) v)) =
        verifyExc (refsOfMonth data run month) from funext (verifyExc_idem (refsOfMonth data run month))]
    have hstd : monthStateOf (addrUpdated (addrUpdated data run month now1) run month now2) run month =
        { monthStateOf (addrUpdated data run month now1) run month with
            doubtful_addressed_at := some now2 } :=
      monthStateOf_setMonthState
        { (addrUpdated data run month now1) with
            exceptions := alistUpdate (addrUpdated data run month now1).exceptions run
              (verifyExc (refsOfMonth (addrUpdated data run month now1) run month)) }
        run month (fun st => { st with doubtful_addressed_at := some now2 })
    have hbuild : buildMonthlySummary (addrUpdated (addrUpdated data run month now1) run month now2) run month =
        buildMonthlySummary (addrUpdated data run month now1) run month := by
      apply buildMonthlySummary_congr
      · rfl
      · show (alistFind (addrUpdated (addrUpdated data run month now1) run month now2).exceptions run).getD [] = _
        rw [hEx]
        rfl
      · rw [hstd]
      · rw [hstd]
      · rw [hstd]
      · rw [hstd]
      · rw [hstd]
      · rw [hstd]
    have hmem2 : month ∈ monthsOf (addrUpdated (addrUpdated data run month now1) run month now2) run :=
      mem_monthsOf_of_stateMonths _ _ _
        (mem_stateMonths_setMonthState
          { (addrUpdated data run month now1) with
              exceptions := alistUpdate (addrUpdated data run month now1).exceptions run
                (verifyExc (refsOfMonth (addrUpdated data run month now1) run month)) }
          run month (fun st => { st with doubtful_addressed_at := some now2 }))
    refine ⟨addrUpdated (addrUpdated data run month now1) run month now2, ?_, hEx⟩
    unfold address_monthly_doubtful
    rw [if_neg (fun hgg => hgg.2 hB)]
    show (match get_monthly_submission (addrUpdated (addrUpdated data run month now1) run month now2) run month with
        | some s => Except.ok (addrUpdated (addrUpdated data run month now1) run month now2, s)
        | none => Except.error (StErr.keyErr month)) =
      Except.ok (addrUpdated (addrUpdated data run month now1) run month now2,
        buildMonthlySummary (addrUpdated data run month now1) run month)
    rw [get_monthly_submission_of_mem _ _ _ hmem2, hbuild]

/-- The result of the first `address_monthly_doubtful` call on `storeJan`. -/
def addressedJan : Data × MonthlySubmissionSummary :=
  (address_monthly_doubtful storeJan "r1" "2024-01" "T1").toOption.getD
    (storeJan, buildMonthlySummary storeJan "r1" "2024-01")

/-- Witness for C8 at `storeJan` (one open doubtful exception in
`2024-01`). -/
theorem C8_address_doubtful_idempotent_witness :
    (address_monthly_doubtful storeJan "r1" "2024-01" "T1" =
      .ok (addressedJan.1, addressedJan.2)) ∧
    (∃ d2, address_monthly_doubtful addressedJan.1 "r1" "2024-01" "T2" =
        .ok (d2, addressedJan.2) ∧
      d2.exceptions = addressedJan.1.exceptions) :=
  ⟨rfl,
    C8_address_doubtful_idempotent storeJan "r1" "2024-01" "T1" "T2"
      addressedJan.1 addressedJan.2 rfl⟩
